import Mathlib

/-!
# Verification of the CVE threat-intelligence pipeline (Silver → Gold core)

Shallow embedding of the repository's CVSS vector decoding
(`src/utils/cvss_parser.py`), star-schema transformation
(`src/stream/transform/transformation_to_gold_m.py`) and append-only
incremental gold loader (`src/stream/load/load_gold_layer_m.py`),
together with theorems settling the specification's claims about them.

Python dictionaries are modelled as insertion-ordered association lists,
pandas DataFrames as lists of structure values, and the database tables of
the gold layer as lists held in a `GoldState`.  Machine-level concerns
(SQL, connection handling, logging) are outside the embedded core, exactly
as the specification scopes them.
-/

namespace ThreatIntel

/-! ## String primitives

Python's string operations are embedded structurally over the character
list of the string (`String.data`), so that every definition evaluates
inside the kernel.  `pySplit` is `str.split(sep)` for a one-character
separator, `pyTrim` is `str.strip()` on the whitespace characters that can
occur in the data, `pyLower` is `str.lower()` on ASCII, `pyTake` is the
slice `s[:n]`. -/

/-- Characters stripped by Python `str.strip()` (ASCII whitespace and the
non-breaking space, the classes occurring in the scraped data). -/
def isPySpace (c : Char) : Bool :=
  c = ' ' || c = '\t' || c = '\n' || c = '\r' || c = '\u000B' || c = '\u000C' || c = '\u00A0'

/-- Both-ends strip on a character list. -/
def trimChars (l : List Char) : List Char :=
  ((l.dropWhile isPySpace).reverse.dropWhile isPySpace).reverse

/-- Python `str.strip()`. -/
def pyTrim (s : String) : String := String.mk (trimChars s.data)

/-- Python `str.lower()` (ASCII). -/
def pyLower (s : String) : String := String.mk (s.data.map Char.toLower)

/-- Python `s[:n]`. -/
def pyTake (n : Nat) (s : String) : String := String.mk (s.data.take n)

/-- Python `str.replace("\xa0", " ")` (the separator is one character). -/
def pyReplaceNbsp (s : String) : String :=
  String.mk (s.data.map (fun c => if c = '\u00A0' then ' ' else c))

/-- Python `s.split(sep)` on a character list (`"".split(sep) == [""]`,
adjacent separators yield empty fields). -/
def splitChars (sep : Char) : List Char → List (List Char)
  | [] => [[]]
  | c :: cs =>
      if c = sep then [] :: splitChars sep cs
      else
        match splitChars sep cs with
        | [] => [[c]]
        | g :: gs => (c :: g) :: gs

/-- Python `s.split(sep)` for a one-character separator. -/
def pySplit (sep : Char) (s : String) : List String :=
  (splitChars sep s.data).map String.mk

/-- Break a character list at its first `':'`: `none` when there is no
colon, otherwise the characters before it and the characters after it. -/
def breakAtColon : List Char → Option (List Char × List Char)
  | [] => none
  | c :: cs =>
      if c = ':' then some ([], cs)
      else (breakAtColon cs).map (fun kv => (c :: kv.1, kv.2))

/-! ## Ordered dictionaries (Python `dict` on string keys) -/

/-- Python `d[k] = v` on an insertion-ordered dictionary: an existing key
keeps its position and receives the new value, a new key is appended. -/
def dictInsert (k : String) (v : Option String) :
    List (String × Option String) → List (String × Option String)
  | [] => [(k, v)]
  | (k', v') :: rest =>
      if k' = k then (k, v) :: rest else (k', v') :: dictInsert k v rest

/-- Python `k in d`. -/
def dictMem (k : String) (m : List (String × Option String)) : Bool :=
  (m.lookup k).isSome

/-- Python `d.get(k)`: `none` when the key is absent, otherwise the stored
value (itself optional, since the source stores `None` values). -/
def dictGet (k : String) (m : List (String × Option String)) : Option String :=
  (m.lookup k).join

/-- Python `key in TABLE` for the class-level metric tables
(dictionaries from metric code to metric long name). -/
def tableMem (k : String) (tbl : List (String × String)) : Bool :=
  (tbl.lookup k).isSome

/-! ## `src/utils/cvss_parser.py` — class `CVSSVectorParser` -/

/-- `CVSS_V2_METRICS` (metric code → metric long name). -/
def CVSS_V2_METRICS : List (String × String) :=
  [("AV", "Attack Vector"), ("AC", "Attack Complexity"),
   ("Au", "Authentication"), ("C", "Confidentiality"),
   ("I", "Integrity"), ("A", "Availability")]

/-- `CVSS_V3_BASE_METRICS`. -/
def CVSS_V3_BASE_METRICS : List (String × String) :=
  [("AV", "Attack Vector"), ("AC", "Attack Complexity"),
   ("PR", "Privileges Required"), ("UI", "User Interaction"),
   ("S", "Scope"), ("C", "Confidentiality"),
   ("I", "Integrity"), ("A", "Availability")]

/-- `CVSS_V3_TEMPORAL_METRICS`. -/
def CVSS_V3_TEMPORAL_METRICS : List (String × String) :=
  [("E", "Exploit Code Maturity"), ("RL", "Remediation Level"),
   ("RC", "Report Confidence")]

/-- `CVSS_V3_ENVIRONMENTAL_METRICS`. -/
def CVSS_V3_ENVIRONMENTAL_METRICS : List (String × String) :=
  [("CR", "Confidentiality Requirement"), ("IR", "Integrity Requirement"),
   ("AR", "Availability Requirement"), ("MAV", "Modified Attack Vector"),
   ("MAC", "Modified Attack Complexity"), ("MPR", "Modified Privileges Required"),
   ("MUI", "Modified User Interaction"), ("MS", "Modified Scope"),
   ("MC", "Modified Confidentiality"), ("MI", "Modified Integrity"),
   ("MA", "Modified Availability")]

/-- `CVSS_V4_BASE_METRICS` (only consulted by `get_all_column_names`,
never by `_parse_v4`, which accepts every key). -/
def CVSS_V4_BASE_METRICS : List (String × String) :=
  [("AV", "Attack Vector"), ("AT", "Attack Complexity"),
   ("AC", "Attack Complexity (Legacy)"), ("VC", "Vulnerable Component"),
   ("VI", "Vulnerable Component Integrity"), ("VA", "Vulnerable Component Availability"),
   ("SC", "Subsequent Component Impact"), ("SI", "Subsequent Component Integrity"),
   ("SA", "Subsequent Component Availability")]

/-- Python `":" in pair` followed by `key, value = pair.split(":", 1)`:
`none` when the segment holds no colon, otherwise the text before the
first colon and the whole remainder after it. -/
def splitFirstColon (pair : String) : Option (String × String) :=
  (breakAtColon pair.data).map (fun kv => (String.mk kv.1, String.mk kv.2))

/-- Loop body of `_parse_v2`: keep only keys of `CVSS_V2_METRICS`. -/
def v2CollectStep (metrics : List (String × Option String)) (pair : String) :
    List (String × Option String) :=
  match splitFirstColon pair with
  | some (k, v) =>
      let key := pyTrim k
      let value := pyTrim v
      if tableMem key CVSS_V2_METRICS then
        dictInsert ("cvss_v2_" ++ pyLower key) (some value) metrics
      else metrics
  | none => metrics

/-- Fill loop of `_parse_v2`: missing metrics become `None`. -/
def v2FillStep (metrics : List (String × Option String)) (kv : String × String) :
    List (String × Option String) :=
  let metricKey := "cvss_v2_" ++ pyLower kv.1
  if dictMem metricKey metrics then metrics else dictInsert metricKey none metrics

/-- `CVSSVectorParser._parse_v2`. -/
def parse_v2 (vector : String) : List (String × Option String) :=
  let pairs := pySplit '/' vector
  let metrics := pairs.foldl v2CollectStep []
  CVSS_V2_METRICS.foldl v2FillStep metrics

/-- Loop body of `_parse_v3`: base, temporal and environmental tables. -/
def v3CollectStep (metrics : List (String × Option String)) (pair : String) :
    List (String × Option String) :=
  match splitFirstColon pair with
  | some (k, v) =>
      let key := pyTrim k
      let value := pyTrim v
      if tableMem key CVSS_V3_BASE_METRICS then
        dictInsert ("cvss_v3_base_" ++ pyLower key) (some value) metrics
      else if tableMem key CVSS_V3_TEMPORAL_METRICS then
        dictInsert ("cvss_v3_temp_" ++ pyLower key) (some value) metrics
      else if tableMem key CVSS_V3_ENVIRONMENTAL_METRICS then
        dictInsert ("cvss_v3_env_" ++ pyLower key) (some value) metrics
      else metrics
  | none => metrics

/-- Fill loop of `_parse_v3`: only missing base metrics become `None`. -/
def v3FillStep (metrics : List (String × Option String)) (kv : String × String) :
    List (String × Option String) :=
  let metricKey := "cvss_v3_base_" ++ pyLower kv.1
  if dictMem metricKey metrics then metrics else dictInsert metricKey none metrics

/-- `CVSSVectorParser._parse_v3`. -/
def parse_v3 (vector : String) : List (String × Option String) :=
  let pairs := pySplit '/' vector
  let metrics := pairs.foldl v3CollectStep []
  CVSS_V3_BASE_METRICS.foldl v3FillStep metrics

/-- Loop body of `_parse_v4`: every colon pair is kept, no key filtering. -/
def v4CollectStep (metrics : List (String × Option String)) (pair : String) :
    List (String × Option String) :=
  match splitFirstColon pair with
  | some (k, v) => dictInsert ("cvss_v4_" ++ pyLower (pyTrim k)) (some (pyTrim v)) metrics
  | none => metrics

/-- `CVSSVectorParser._parse_v4`. -/
def parse_v4 (vector : String) : List (String × Option String) :=
  (pySplit '/' vector).foldl v4CollectStep []

/-- A Python value as it can reach `parse_vector`'s `vector` argument:
`None`, a string, or a non-string value (float NaN, list, …). -/
inductive PyVal where
  | none
  | str (s : String)
  | other
  deriving DecidableEq

/-- `CVSSVectorParser.parse_vector`: the guard
`if not vector or not isinstance(vector, str): return {}` followed by the
version dispatch; an unknown version leaves `result = {}`. -/
def parse_vector (vector : PyVal) (version : String) :
    List (String × Option String) :=
  match vector with
  | .str s =>
      if s = "" then []
      else
        let v := pyTrim s
        if version = "v2" then parse_v2 v
        else if version = "v3" then parse_v3 v
        else if version = "v4" then parse_v4 v
        else []
  | _ => []

/-- Column names produced by the v2 tables (`get_all_column_names("v2")`). -/
def v2ColumnNames : List String :=
  CVSS_V2_METRICS.map (fun kv => "cvss_v2_" ++ pyLower kv.1)

/-- Column names produced by the v3 tables (`get_all_column_names("v3")`). -/
def v3ColumnNames : List String :=
  CVSS_V3_BASE_METRICS.map (fun kv => "cvss_v3_base_" ++ pyLower kv.1) ++
  CVSS_V3_TEMPORAL_METRICS.map (fun kv => "cvss_v3_temp_" ++ pyLower kv.1) ++
  CVSS_V3_ENVIRONMENTAL_METRICS.map (fun kv => "cvss_v3_env_" ++ pyLower kv.1)

/-- The v2 result when no metric pair is found: every base column `None`. -/
def v2AllNone : List (String × Option String) :=
  CVSS_V2_METRICS.map (fun kv => ("cvss_v2_" ++ pyLower kv.1, none))

/-- The v3 result when no metric pair is found: every base column `None`. -/
def v3AllNone : List (String × Option String) :=
  CVSS_V3_BASE_METRICS.map (fun kv => ("cvss_v3_base_" ++ pyLower kv.1, none))

/-! ## Further executable primitives (sorting, dedup, decimals) -/

/-- Lexicographic comparison of character lists (Python string `<=` by
code point). -/
def lexLe : List Char → List Char → Bool
  | [], _ => true
  | _ :: _, [] => false
  | a :: as, b :: bs => if a < b then true else if b < a then false else lexLe as bs

/-- Stable insertion into a sorted list. -/
def insertSorted {α : Type} (le : α → α → Bool) (x : α) : List α → List α
  | [] => [x]
  | y :: ys => if le x y then x :: y :: ys else y :: insertSorted le x ys

/-- Python `sorted(...)` (insertion sort; total orders give the same
sorted sequence as any correct sort). -/
def sortBy {α : Type} (le : α → α → Bool) (l : List α) : List α :=
  l.foldr (insertSorted le) []

/-- Python `sorted` on strings. -/
def sortStrings (l : List String) : List String :=
  sortBy (fun a b => lexLe a.data b.data) l

/-- pandas `drop_duplicates()` / iteration over a set of collected values:
distinct elements, first occurrence kept in order. -/
def dropDuplicates {α : Type} [DecidableEq α] : List α → List α :=
  go []
where
  go : List α → List α → List α
  | _, [] => []
  | seen, x :: xs => if x ∈ seen then go seen xs else x :: go (x :: seen) xs

/-- Digit-list parse (`none` on empty input or a non-digit character). -/
def parseNatDigits (l : List Char) : Option Nat :=
  if l.isEmpty then none
  else l.foldl (fun acc c =>
    acc.bind (fun n => if c.isDigit then some (n * 10 + (c.toNat - 48)) else none))
    (some 0)

/-- Models `pd.to_numeric(errors='coerce')` on the score texts of the
facts: an unsigned decimal literal parses to its rational value, anything
else (including `None`) coerces to a missing value, never an error. -/
def pd_to_numeric (x : Option String) : Option Rat :=
  match x with
  | none => none
  | some s =>
      match splitChars '.' (pyTrim s).data with
      | [ip] => (parseNatDigits ip).map (fun n => (n : Rat))
      | [ip, fp] =>
          match parseNatDigits ip, parseNatDigits fp with
          | some n, some f => some ((n : Rat) + (f : Rat) / ((10 : Rat) ^ fp.length))
          | _, _ => none
      | _ => none

/-! ## `transformation_to_gold_m.py` — helpers and data model

Silver rows are modelled with their nested JSON columns already decoded
(`_safe_json_load` on well-formed input); dates are integer timestamps
with `none` for a missing date (pandas `NaT`); a missing `cve_id` is the
empty string (both are falsy in `if not cve_id`). -/

/-- `_norm_text`: `"" if pd.isna(s) else str(s).replace("\xa0", " ").strip()`,
truncated when `maxlen` is truthy (a non-zero number). -/
def norm_text (s : Option String) (maxlen : Option Nat) : String :=
  match s with
  | none => ""
  | some t =>
      let val := pyTrim (pyReplaceNbsp t)
      match maxlen with
      | some (n + 1) => pyTake (n + 1) val
      | _ => val

/-- Python `a or b` on optional strings (`None` and `""` are falsy). -/
def pyOrOpt (a b : Option String) : Option String :=
  match a with
  | some s => if s = "" then b else some s
  | none => b

/-- Python `s or 'unknown'`. -/
def orUnknown (s : String) : String := if s = "" then "unknown" else s

/-- One entry of the JSON-decoded `cvss_scores` list of a silver row. -/
structure ScoreEntry where
  version : Option String
  source_identifier : Option String
  source : Option String
  score : Option String
  severity : Option String
  vector : Option String
  exploitability_score : Option String
  impact_score : Option String
  deriving DecidableEq, Repr

/-- One entry of the JSON-decoded `affected_products` list. -/
structure ProductEntry where
  vendor : Option String
  product : Option String
  deriving DecidableEq, Repr

/-- One row of `silver.cve_cleaned` as consumed by the gold transform. -/
structure SilverRow where
  cve_id : String
  title : Option String
  description : Option String
  category : Option String
  predicted_category : Option String
  published_date : Option Int
  last_modified : Option Int
  loaded_at : Option Int
  remotely_exploit : Option Bool
  source_identifier : Option String
  cvss_scores : List ScoreEntry
  affected_products : List ProductEntry
  deriving DecidableEq, Repr

/-- `get_version_info`. -/
def get_version_info (version_str : Option String) : Option String × Option String :=
  if version_str = some "CVSS 2.0" then (some "v2", some "CVSS 2.0")
  else if version_str = some "CVSS 3.0" then (some "v3", some "CVSS 3.0")
  else if version_str = some "CVSS 3.1" then (some "v3", some "CVSS 3.1")
  else if version_str = some "CVSS 4.0" then (some "v4", some "CVSS 4.0")
  else (none, none)

/-! ## `create_dim_cve` -/

/-- One row of gold `dim_cve`. -/
structure DimCveRow where
  cve_id : String
  title : Option String
  description : Option String
  category : Option String
  predicted_category : Option String
  published_date : Option Int
  last_modified : Option Int
  loaded_at : Option Int
  remotely_exploit : Option Bool
  source_identifier : Option String
  deriving DecidableEq, Repr

/-- pandas groupby-`first` aggregation: first non-missing value. -/
def pdFirst {α : Type} (xs : List (Option α)) : Option α :=
  (xs.filterMap id).head?

/-- pandas groupby-`max` aggregation on dates: maximum ignoring missing. -/
def pdMaxInt (xs : List (Option Int)) : Option Int :=
  match xs.filterMap id with
  | [] => none
  | y :: ys => some (ys.foldl max y)

/-- `create_dim_cve`: group by `cve_id` (pandas sorts group keys), take
per-group aggregates, then fill the NOT NULL columns; `now` is
`pd.Timestamp.utcnow()`. -/
def create_dim_cve (df : List SilverRow) (now : Int) : List DimCveRow :=
  let keys := sortStrings (dropDuplicates (df.map (fun r => r.cve_id)))
  keys.map (fun k =>
    let rows := df.filter (fun r => decide (r.cve_id = k))
    let pub := (pdFirst (rows.map (fun r => r.published_date))).getD now
    { cve_id := pyTake 20 k
      title := some ((pdFirst (rows.map (fun r => r.title))).getD "Unknown")
      description := pdFirst (rows.map (fun r => r.description))
      category := pdFirst (rows.map (fun r => r.category))
      predicted_category := pdFirst (rows.map (fun r => r.predicted_category))
      published_date := some pub
      last_modified := some ((pdMaxInt (rows.map (fun r => r.last_modified))).getD pub)
      loaded_at := some ((pdMaxInt (rows.map (fun r => r.loaded_at))).getD now)
      remotely_exploit := pdFirst (rows.map (fun r => r.remotely_exploit))
      source_identifier :=
        (fun v => if v = "" then none else some v)
          (norm_text (pdFirst (rows.map (fun r => r.source_identifier))) none) })

/-! ## `create_cvss_facts` -/

/-- Version-specific payload of a `cvss_v2` row. -/
structure V2Rest where
  cvss_score : Option Rat
  cvss_severity : Option String
  cvss_v2_av : Option String
  cvss_v2_ac : Option String
  cvss_v2_au : Option String
  cvss_v2_c : Option String
  cvss_v2_i : Option String
  cvss_v2_a : Option String
  cvss_exploitability_score : Option Rat
  cvss_impact_score : Option Rat
  deriving DecidableEq, Repr

/-- Version-specific payload of a `cvss_v3` row. -/
structure V3Rest where
  cvss_version : Option String
  cvss_score : Option Rat
  cvss_severity : Option String
  cvss_v3_base_av : Option String
  cvss_v3_base_ac : Option String
  cvss_v3_base_pr : Option String
  cvss_v3_base_ui : Option String
  cvss_v3_base_s : Option String
  cvss_v3_base_c : Option String
  cvss_v3_base_i : Option String
  cvss_v3_base_a : Option String
  cvss_exploitability_score : Option Rat
  cvss_impact_score : Option Rat
  deriving DecidableEq, Repr

/-- Version-specific payload of a `cvss_v4` row. -/
structure V4Rest where
  cvss_score : Option Rat
  cvss_severity : Option String
  cvss_v4_av : Option String
  cvss_v4_at : Option String
  cvss_v4_ac : Option String
  cvss_v4_vc : Option String
  cvss_v4_vi : Option String
  cvss_v4_va : Option String
  cvss_v4_sc : Option String
  cvss_v4_si : Option String
  cvss_v4_sa : Option String
  deriving DecidableEq, Repr

/-- A staged fact row as produced by the transform: the columns the loader
reads (`cve_id`, `cvss_source`, `cvss_vector`) plus the version payload. -/
structure FactRow (β : Type) where
  cve_id : String
  cvss_source : String
  cvss_vector : String
  rest : β
  deriving DecidableEq, Repr

/-- A persisted fact row: `cvss_source` has been resolved to `source_id`. -/
structure FactRowP (β : Type) where
  cve_id : String
  source_id : Nat
  cvss_vector : String
  rest : β
  deriving DecidableEq, Repr

/-- Normalized reporting source of a score entry:
`_norm_text(entry.get('source_identifier') or entry.get('source'), 100) or 'unknown'`. -/
def entrySource (e : ScoreEntry) : String :=
  orUnknown (norm_text (pyOrOpt e.source_identifier e.source) (some 100))

/-- The v2 record built for one score entry (the trailing
`pd.to_numeric(errors='coerce')` pass on the score columns is applied at
row construction; no other code observes the raw-text columns). -/
def entryToV2 (cve_id : String) (e : ScoreEntry) (vector : String) : FactRow V2Rest :=
  let metrics := parse_vector (PyVal.str vector) "v2"
  { cve_id := pyTake 20 cve_id
    cvss_source := entrySource e
    cvss_vector := vector
    rest :=
      { cvss_score := pd_to_numeric e.score
        cvss_severity := e.severity
        cvss_v2_av := dictGet "cvss_v2_av" metrics
        cvss_v2_ac := dictGet "cvss_v2_ac" metrics
        cvss_v2_au := dictGet "cvss_v2_au" metrics
        cvss_v2_c := dictGet "cvss_v2_c" metrics
        cvss_v2_i := dictGet "cvss_v2_i" metrics
        cvss_v2_a := dictGet "cvss_v2_a" metrics
        cvss_exploitability_score := pd_to_numeric e.exploitability_score
        cvss_impact_score := pd_to_numeric e.impact_score } }

/-- The v3 record built for one score entry. -/
def entryToV3 (cve_id : String) (e : ScoreEntry) (vlabel : Option String)
    (vector : String) : FactRow V3Rest :=
  let metrics := parse_vector (PyVal.str vector) "v3"
  { cve_id := pyTake 20 cve_id
    cvss_source := entrySource e
    cvss_vector := vector
    rest :=
      { cvss_version := vlabel
        cvss_score := pd_to_numeric e.score
        cvss_severity := e.severity
        cvss_v3_base_av := dictGet "cvss_v3_base_av" metrics
        cvss_v3_base_ac := dictGet "cvss_v3_base_ac" metrics
        cvss_v3_base_pr := dictGet "cvss_v3_base_pr" metrics
        cvss_v3_base_ui := dictGet "cvss_v3_base_ui" metrics
        cvss_v3_base_s := dictGet "cvss_v3_base_s" metrics
        cvss_v3_base_c := dictGet "cvss_v3_base_c" metrics
        cvss_v3_base_i := dictGet "cvss_v3_base_i" metrics
        cvss_v3_base_a := dictGet "cvss_v3_base_a" metrics
        cvss_exploitability_score := pd_to_numeric e.exploitability_score
        cvss_impact_score := pd_to_numeric e.impact_score } }

/-- The v4 record built for one score entry. -/
def entryToV4 (cve_id : String) (e : ScoreEntry) (vector : String) : FactRow V4Rest :=
  let metrics := parse_vector (PyVal.str vector) "v4"
  { cve_id := pyTake 20 cve_id
    cvss_source := entrySource e
    cvss_vector := vector
    rest :=
      { cvss_score := pd_to_numeric e.score
        cvss_severity := e.severity
        cvss_v4_av := dictGet "cvss_v4_av" metrics
        cvss_v4_at := dictGet "cvss_v4_at" metrics
        cvss_v4_ac := dictGet "cvss_v4_ac" metrics
        cvss_v4_vc := dictGet "cvss_v4_vc" metrics
        cvss_v4_vi := dictGet "cvss_v4_vi" metrics
        cvss_v4_va := dictGet "cvss_v4_va" metrics
        cvss_v4_sc := dictGet "cvss_v4_sc" metrics
        cvss_v4_si := dictGet "cvss_v4_si" metrics
        cvss_v4_sa := dictGet "cvss_v4_sa" metrics } }

/-- The shared guards of the score loop of `create_cvss_facts`:
`continue` when the version tag is unknown or the normalized vector is
empty (`NOT NULL` downstream), otherwise the version key, label and
vector. -/
def entryGuards (e : ScoreEntry) : Option (String × Option String × String) :=
  match get_version_info e.version with
  | (some vkey, vlabel) =>
      let vector := norm_text e.vector none
      if vector = "" then none else some (vkey, vlabel, vector)
  | _ => none

/-- v2 records contributed by one silver row (`continue` on falsy
`cve_id`; the per-entry `append`s are rendered as an order-preserving
flattened map). -/
def v2FactsOfRow (row : SilverRow) : List (FactRow V2Rest) :=
  if row.cve_id = "" then []
  else row.cvss_scores.filterMap (fun e =>
    match entryGuards e with
    | some (vkey, _, vector) =>
        if vkey = "v2" then some (entryToV2 row.cve_id e vector) else none
    | none => none)

/-- v3 records contributed by one silver row. -/
def v3FactsOfRow (row : SilverRow) : List (FactRow V3Rest) :=
  if row.cve_id = "" then []
  else row.cvss_scores.filterMap (fun e =>
    match entryGuards e with
    | some (vkey, vlabel, vector) =>
        if vkey = "v3" then some (entryToV3 row.cve_id e vlabel vector) else none
    | none => none)

/-- v4 records contributed by one silver row. -/
def v4FactsOfRow (row : SilverRow) : List (FactRow V4Rest) :=
  if row.cve_id = "" then []
  else row.cvss_scores.filterMap (fun e =>
    match entryGuards e with
    | some (vkey, _, vector) =>
        if vkey = "v4" then some (entryToV4 row.cve_id e vector) else none
    | none => none)

/-- `create_cvss_facts`. -/
def create_cvss_facts (df : List SilverRow) :
    List (FactRow V2Rest) × List (FactRow V3Rest) × List (FactRow V4Rest) :=
  (df.flatMap v2FactsOfRow, df.flatMap v3FactsOfRow, df.flatMap v4FactsOfRow)

/-! ## `create_vendors_products_and_bridge` -/

/-- In-progress vendor aggregate (`vendors_dict` values); `total_products`
is the Python set of lowercased product names. -/
structure VendorAcc where
  vendor_name : String
  total_products : List String
  total_cves : Nat
  first_cve_date : Option Int
  last_cve_date : Option Int
  deriving DecidableEq, Repr

/-- In-progress product aggregate (`products_dict` values). -/
structure ProductAcc where
  vendor_lower : String
  product_name : String
  total_cves : Nat
  first_cve_date : Option Int
  last_cve_date : Option Int
  deriving DecidableEq, Repr

/-- Python dict upsert: `d.get(k)` then either in-place mutation or
insertion of a fresh value at the end. -/
def upsert {κ ν : Type} [DecidableEq κ] (k : κ) (init : ν) (f : ν → ν) :
    List (κ × ν) → List (κ × ν)
  | [] => [(k, init)]
  | (k', v') :: rest =>
      if k' = k then (k', f v') :: rest else (k', v') :: upsert k init f rest

/-- Python `set.add`. -/
def setAdd (x : String) (s : List String) : List String :=
  if x ∈ s then s else s ++ [x]

/-- The guarded min/max update of the date bounds (`if pd.notna(published_date)`). -/
def updDates (pub : Option Int) (first last : Option Int) : Option Int × Option Int :=
  match pub with
  | none => (first, last)
  | some p =>
      ((match first with
        | none => some p
        | some f => if p < f then some p else some f),
       (match last with
        | none => some p
        | some l => if p > l then some p else some l))

/-- The mutable state of the product loop. -/
structure VPBState where
  vendors : List (String × VendorAcc)
  products : List ((String × String) × ProductAcc)
  bridge : List (String × String × String)
  deriving DecidableEq, Repr

/-- Body of the inner loop over `affected_products`. -/
def vpbStepProd (cve_id : String) (pub : Option Int) (st : VPBState)
    (prod : ProductEntry) : VPBState :=
  let vendor := norm_text prod.vendor none
  let product := norm_text prod.product none
  if vendor = "" ∨ product = "" then st
  else
    let vkey := pyLower vendor
    let pkey := pyLower product
    { vendors := upsert vkey
        { vendor_name := vendor, total_products := [pkey], total_cves := 1,
          first_cve_date := pub, last_cve_date := pub }
        (fun v =>
          let fl := updDates pub v.first_cve_date v.last_cve_date
          { v with total_cves := v.total_cves + 1,
                   total_products := setAdd pkey v.total_products,
                   first_cve_date := fl.1, last_cve_date := fl.2 })
        st.vendors
      products := upsert (vkey, pkey)
        { vendor_lower := vkey, product_name := product, total_cves := 1,
          first_cve_date := pub, last_cve_date := pub }
        (fun p =>
          let fl := updDates pub p.first_cve_date p.last_cve_date
          { p with total_cves := p.total_cves + 1,
                   first_cve_date := fl.1, last_cve_date := fl.2 })
        st.products
      bridge := st.bridge ++ [(pyTake 20 cve_id, vkey, pkey)] }

/-- Body of the outer loop over silver rows (`continue` on falsy
`cve_id`; `published_date` is already a date-or-missing in the model, so
`pd.to_datetime(..., errors='coerce')` is the identity on it). -/
def vpbStepRow (st : VPBState) (row : SilverRow) : VPBState :=
  if row.cve_id = "" then st
  else row.affected_products.foldl (vpbStepProd row.cve_id row.published_date) st

/-- One row of gold `dim_vendor`. -/
structure VendorRow where
  vendor_id : Nat
  vendor_name : String
  total_products : Nat
  total_cves : Nat
  first_cve_date : Option Int
  last_cve_date : Option Int
  deriving DecidableEq, Repr

/-- One row of gold `dim_products` (`vendor_id` is `vendor_lookup.get`,
hence optional). -/
structure ProductRow where
  product_id : Nat
  vendor_id : Option Nat
  product_name : String
  total_cves : Nat
  first_cve_date : Option Int
  last_cve_date : Option Int
  deriving DecidableEq, Repr

/-- `vendor_lookup`: dict comprehension keyed by lowercased vendor name
(later rows win on duplicate keys, though the keys are distinct). -/
def vendorLookup (dim_vendor : List VendorRow) (v : String) : Option Nat :=
  ((dim_vendor.filter (fun r => decide (pyLower r.vendor_name = v))).getLast?).map
    (fun r => r.vendor_id)

/-- `product_lookup`: keyed by `(vendor_id, lowercased product name)`,
skipping rows with a missing `vendor_id`. -/
def productLookup (dim_products : List ProductRow) (vid : Nat) (pl : String) : Option Nat :=
  ((dim_products.filter (fun r =>
      decide (r.vendor_id = some vid ∧ pyLower r.product_name = pl))).getLast?).map
    (fun r => r.product_id)

/-- `create_vendors_products_and_bridge`: the two dictionaries are
enumerated in insertion order with identifiers starting at 1, and the
bridge staging records are resolved, `dropna`-ed and de-duplicated. -/
def create_vendors_products_and_bridge (df : List SilverRow) :
    List VendorRow × List ProductRow × List (String × Nat) :=
  let st := df.foldl vpbStepRow ⟨[], [], []⟩
  if st.vendors.isEmpty then ([], [], [])
  else
    let dim_vendor := st.vendors.enum.map (fun p =>
      ({ vendor_id := p.1 + 1
         vendor_name := p.2.2.vendor_name
         total_products := p.2.2.total_products.length
         total_cves := p.2.2.total_cves
         first_cve_date := p.2.2.first_cve_date
         last_cve_date := p.2.2.last_cve_date } : VendorRow))
    let dim_products := st.products.enum.map (fun p =>
      ({ product_id := p.1 + 1
         vendor_id := vendorLookup dim_vendor p.2.2.vendor_lower
         product_name := p.2.2.product_name
         total_cves := p.2.2.total_cves
         first_cve_date := p.2.2.first_cve_date
         last_cve_date := p.2.2.last_cve_date } : ProductRow))
    let bridge := dropDuplicates (st.bridge.filterMap (fun b =>
      match vendorLookup dim_vendor b.2.1 with
      | none => none
      | some vid => (productLookup dim_products vid b.2.2).map (fun pid => (b.1, pid))))
    (dim_vendor, dim_products, bridge)

/-- The transform's table package (`transform_silver_to_gold`). -/
structure GoldTables where
  dim_cve : List DimCveRow
  dim_vendor : List VendorRow
  dim_products : List ProductRow
  cvss_v2 : List (FactRow V2Rest)
  cvss_v3 : List (FactRow V3Rest)
  cvss_v4 : List (FactRow V4Rest)
  bridge_cve_products : List (String × Nat)
  deriving DecidableEq, Repr

/-- `transform_silver_to_gold`. -/
def transform_silver_to_gold (df : List SilverRow) (now : Int) : GoldTables :=
  let dim_cve := create_dim_cve df now
  let vpb := create_vendors_products_and_bridge df
  let facts := create_cvss_facts df
  { dim_cve := dim_cve
    dim_vendor := vpb.1
    dim_products := vpb.2.1
    cvss_v2 := facts.1
    cvss_v3 := facts.2.1
    cvss_v4 := facts.2.2
    bridge_cve_products := vpb.2.2 }

/-! ## `load_gold_layer_m.py` — the append-only incremental loader

The gold database is a `GoldState` of row lists; `to_sql(if_exists='append')`
is list append.  `dim_cvss_source.source_id` is the SERIAL position
(index + 1) of the row. -/

/-- The persisted gold tables. -/
structure GoldState where
  dim_cve : List DimCveRow
  dim_cvss_source : List String
  dim_vendor : List VendorRow
  dim_products : List ProductRow
  cvss_v2 : List (FactRowP V2Rest)
  cvss_v3 : List (FactRowP V3Rest)
  cvss_v4 : List (FactRowP V4Rest)
  bridge_cve_products : List (String × Nat)
  deriving DecidableEq, Repr

/-- The name → id dict built from `SELECT source_id, source_name`
(last row wins on a duplicate name). -/
def sourceMapping (tbl : List String) : String → Option Nat := fun s =>
  ((tbl.enum.filter (fun p => decide (p.2 = s))).getLast?).map (fun p => p.1 + 1)

/-- Source strings collected from one fact table:
`dropna().astype(str).str.replace('\xa0', ' ').str.strip().str[:100]`
(`cvss_source` is never null in a staged row). -/
def collectFactSources {β : Type} (df : List (FactRow β)) : List String :=
  df.map (fun r => pyTake 100 (pyTrim (pyReplaceNbsp r.cvss_source)))

/-- `load_dim_cvss_source`: when no source at all is collected, return the
empty dict without touching the table; otherwise insert the sorted new
sources and rebuild the mapping from the full table. -/
def load_dim_cvss_source (v2 : List (FactRow V2Rest)) (v3 : List (FactRow V3Rest))
    (v4 : List (FactRow V4Rest)) (tbl : List String) :
    List String × (String → Option Nat) :=
  let sources := dropDuplicates
    (collectFactSources v2 ++ collectFactSources v3 ++ collectFactSources v4)
  if sources.isEmpty then (tbl, fun _ => none)
  else
    let new_sources := sortStrings (sources.filter (fun s => decide (s ≠ "" ∧ s ∉ tbl)))
    let tbl1 := tbl ++ new_sources
    (tbl1, sourceMapping tbl1)

/-- `_prepare_dim_cve` on one row (`now` is the loader's
`pd.Timestamp.utcnow()`; pandas `astype(str)` renders a missing
`source_identifier` as the text `"None"`). -/
def prepare_dim_cve (now : Int) (r : DimCveRow) : DimCveRow :=
  let pub := r.published_date.getD now
  { r with
    cve_id := pyTake 20 r.cve_id
    title := some (r.title.getD "Unknown")
    published_date := some pub
    last_modified := some (r.last_modified.getD pub)
    loaded_at := some (r.loaded_at.getD now)
    source_identifier :=
      some (pyTrim (pyReplaceNbsp (match r.source_identifier with
        | none => "None"
        | some s => s))) }

/-- `load_dimension`: compute `primary_key_col`
(`'cve_id' if table_name == 'dim_cve' else table_name.split('_')[1] + "_id"`)
and, **only when that column exists in the dataframe**, query the
persisted keys among the incoming ones, keep the rows with a new key and
append them; when the computed column is absent the check is skipped and
the whole batch is appended.  `pk?` carries the computed key column:
`some pk` when it names a column of the typed row (`cve_id` for
`dim_cve`, `vendor_id` for `dim_vendor`), `none` when it does not — which
is the case for `dim_products`, whose computed name `products_id`
differs from the actual column `product_id`.  Returns the new table and
the inserted count (`_reindex_for_table` is the identity on the typed
rows). -/
def load_dimension {α κ : Type} [DecidableEq κ] (pk? : Option (α → κ))
    (tbl df : List α) : List α × Nat :=
  if df.isEmpty then (tbl, 0)
  else
    match pk? with
    | some pk =>
        let ids_to_check := df.map pk
        let existing_ids := (tbl.map pk).filter (fun k => decide (k ∈ ids_to_check))
        let df_to_insert := df.filter (fun r => decide (pk r ∉ existing_ids))
        if df_to_insert.isEmpty then (tbl, 0)
        else (tbl ++ df_to_insert, df_to_insert.length)
    | none => (tbl ++ df, df.length)

/-- The composite key `cve_id || '|' || source_id::TEXT || '|' || cvss_vector`. -/
def factCompositeKey (cve_id : String) (source_id : Nat) (vector : String) : String :=
  cve_id ++ "|" ++ toString source_id ++ "|" ++ vector

/-- The NOT NULL guards and source resolution of `load_fact_cvss` (the
steps before the key comparison): truncate `cve_id`, drop empty vectors,
normalize `cvss_source` and map it to `source_id`, dropping unmapped
rows. -/
def factResolve {β : Type} (source_mapping : String → Option Nat)
    (df : List (FactRow β)) : List (FactRowP β) :=
  ((df.map (fun r => { r with cve_id := pyTake 20 r.cve_id })).filter
      (fun r => decide (r.cvss_vector.data.length > 0))).filterMap (fun r =>
    let src := pyTake 100 (pyTrim (pyReplaceNbsp r.cvss_source))
    (source_mapping src).map (fun sid =>
      ({ cve_id := r.cve_id, source_id := sid, cvss_vector := r.cvss_vector,
         rest := r.rest } : FactRowP β)))

/-- The composite key of a persisted fact row. -/
def factKeyP {β : Type} (r : FactRowP β) : String :=
  factCompositeKey r.cve_id r.source_id r.cvss_vector

/-- `load_fact_cvss`: resolve the incoming rows, then insert exactly the
rows whose composite key is not persisted. -/
def load_fact_cvss {β : Type} (tbl : List (FactRowP β)) (df : List (FactRow β))
    (source_mapping : String → Option Nat) : List (FactRowP β) × Nat :=
  if df.isEmpty then (tbl, 0)
  else
    let df3 := factResolve source_mapping df
    if df3.isEmpty then (tbl, 0)
    else
      let existing_keys := tbl.map factKeyP
      let df_to_insert := df3.filter (fun r => decide (factKeyP r ∉ existing_keys))
      if df_to_insert.isEmpty then (tbl, 0)
      else (tbl ++ df_to_insert, df_to_insert.length)

/-- The cleanup steps of `load_bridge`: truncate `cve_id`, de-duplicate
within the batch (`drop_duplicates` keeps the first occurrence; the staged
pairs are non-null by construction, so `dropna` is the identity). -/
def bridgePrep (df : List (String × Nat)) : List (String × Nat) :=
  dropDuplicates (df.map (fun r => (pyTake 20 r.1, r.2)))

/-- The composite key of a bridge row. -/
def bridgeKey (r : String × Nat) : String := r.1 ++ "|" ++ toString r.2

/-- `load_bridge`: clean the incoming pairs, then insert exactly the pairs
whose key is not persisted. -/
def load_bridge (tbl : List (String × Nat)) (df : List (String × Nat)) :
    List (String × Nat) × Nat :=
  if df.isEmpty then (tbl, 0)
  else
    let df1 := bridgePrep df
    if df1.isEmpty then (tbl, 0)
    else
      let existing_keys := tbl.map bridgeKey
      let df_to_insert := df1.filter (fun r => decide (bridgeKey r ∉ existing_keys))
      if df_to_insert.isEmpty then (tbl, 0)
      else (tbl ++ df_to_insert, df_to_insert.length)

/-- Per-table inserted counts reported by `load_gold_layer`. -/
structure LoadStats where
  dim_cve : Nat
  dim_vendor : Nat
  dim_products : Nat
  cvss_v2 : Nat
  cvss_v3 : Nat
  cvss_v4 : Nat
  bridge : Nat
  deriving DecidableEq, Repr

/-- `load_gold_layer`: the `if_exists` argument is accepted and ignored
(a `replace` request only logs a warning), every step runs in `append`
mode in dependency order; schema verification, the materialized-view
refresh and `ANALYZE` touch no table rows and are outside the embedded
state; `now` is the loader's `pd.Timestamp.utcnow()`. -/
def load_gold_layer (S : GoldState) (T : GoldTables) (now : Int)
    (if_exists : String := "append") : GoldState × LoadStats :=
  let _ := if_exists
  let sm := load_dim_cvss_source T.cvss_v2 T.cvss_v3 T.cvss_v4 S.dim_cvss_source
  let dcve := load_dimension (some (fun r : DimCveRow => r.cve_id)) S.dim_cve
    (T.dim_cve.map (prepare_dim_cve now))
  let dven := load_dimension (some (fun r : VendorRow => r.vendor_id)) S.dim_vendor T.dim_vendor
  let dpro := load_dimension (none : Option (ProductRow → Nat)) S.dim_products T.dim_products
  let f2 := load_fact_cvss S.cvss_v2 T.cvss_v2 sm.2
  let f3 := load_fact_cvss S.cvss_v3 T.cvss_v3 sm.2
  let f4 := load_fact_cvss S.cvss_v4 T.cvss_v4 sm.2
  let br := load_bridge S.bridge_cve_products T.bridge_cve_products
  ({ dim_cve := dcve.1
     dim_cvss_source := sm.1
     dim_vendor := dven.1
     dim_products := dpro.1
     cvss_v2 := f2.1
     cvss_v3 := f3.1
     cvss_v4 := f4.1
     bridge_cve_products := br.1 },
   { dim_cve := dcve.2
     dim_vendor := dven.2
     dim_products := dpro.2
     cvss_v2 := f2.2
     cvss_v3 := f3.2
     cvss_v4 := f4.2
     bridge := br.2 })

/-- `run_silver_to_gold` restricted to the embedded core: transform the
silver batch, then load the gold tables (both passes see their own
`utcnow()`). -/
def run_pipeline (S : GoldState) (df : List SilverRow) (nowT nowL : Int)
    (if_exists : String := "append") : GoldState × LoadStats :=
  load_gold_layer S (transform_silver_to_gold df nowT) nowL if_exists

/-! ## Concrete scenarios used by the claims

`exampleEntry`/`exampleRow` is the end-to-end example record of the
specification; the other rows set up the two-batch vendor scenarios. -/

/-- A gold database with every table empty. -/
def emptyGold : GoldState :=
  { dim_cve := [], dim_cvss_source := [], dim_vendor := [], dim_products := [],
    cvss_v2 := [], cvss_v3 := [], cvss_v4 := [], bridge_cve_products := [] }

/-- The single CVSS 3.1 entry of the end-to-end example record. -/
def exampleEntry : ScoreEntry :=
  { version := some "CVSS 3.1", source_identifier := some "nvd@nist.gov",
    source := none, score := some "9.8", severity := some "CRITICAL",
    vector := some "CVSS:3.1/AV:N/AC:L/PR:N/UI:N/S:U/C:H/I:H/A:H",
    exploitability_score := none, impact_score := none }

/-- The end-to-end example record `CVE-2024-0001`. -/
def exampleRow : SilverRow :=
  { cve_id := "CVE-2024-0001", title := some "Example", description := none,
    category := none, predicted_category := none,
    published_date := some 100, last_modified := some 100, loaded_at := some 100,
    remotely_exploit := some true, source_identifier := some "nvd@nist.gov",
    cvss_scores := [exampleEntry],
    affected_products := [{ vendor := some "Acme", product := some "Widget" }] }

/-- The example entry with an empty vector string. -/
def emptyVectorEntry : ScoreEntry := { exampleEntry with vector := some "" }

/-- The example record carrying only the empty-vector entry. -/
def emptyVectorRow : SilverRow := { exampleRow with cvss_scores := [emptyVectorEntry] }

/-- A score entry for the composite-key scenario, parameterized by its
score text. -/
def dupEntry (score : String) : ScoreEntry :=
  { version := some "CVSS 3.1", source_identifier := some "nvd@nist.gov",
    source := none, score := some score, severity := some "HIGH",
    vector := some "CVSS:3.1/AV:N/AC:L/PR:N/UI:N/S:U/C:H/I:H/A:H",
    exploitability_score := none, impact_score := none }

/-- The staged fact row built from `dupEntry score` exactly as the
transform builds it. -/
def dupFactRow (score : String) : FactRow V3Rest :=
  entryToV3 "CVE-2024-0001" (dupEntry score) (some "CVSS 3.1")
    (norm_text (dupEntry score).vector none)

/-- The source dimension containing only the example's reporting source. -/
def dupMapping : String → Option Nat := sourceMapping ["nvd@nist.gov"]

/-- Batch A of the vendor-merge scenario: `CVE-2024-0001` published at
time 100, affecting `Acme Corp` / `Widget`. -/
def vendorRowA : SilverRow :=
  { cve_id := "CVE-2024-0001", title := none, description := none,
    category := none, predicted_category := none,
    published_date := some 100, last_modified := none, loaded_at := none,
    remotely_exploit := none, source_identifier := none,
    cvss_scores := [],
    affected_products := [{ vendor := some "Acme Corp", product := some "Widget" }] }

/-- Batch B of the vendor-merge scenario: a different CVE published at
time 200, affecting `acme corp` / `Widget` (same vendor, different
casing). -/
def vendorRowB : SilverRow :=
  { vendorRowA with
    cve_id := "CVE-2024-0002", published_date := some 200,
    affected_products := [{ vendor := some "acme corp", product := some "Widget" }] }

/-- Run 1 of the identifier scenario introduces vendor `Alpha`. -/
def alphaRow : SilverRow :=
  { vendorRowA with
    affected_products := [{ vendor := some "Alpha", product := some "Widget" }] }

/-- Run 2 of the identifier scenario introduces the genuinely new vendor
`Beta`. -/
def betaRow : SilverRow :=
  { vendorRowB with
    affected_products := [{ vendor := some "Beta", product := some "Gadget" }] }

/-- All-zero per-table statistics. -/
def zeroStats : LoadStats :=
  { dim_cve := 0, dim_vendor := 0, dim_products := 0,
    cvss_v2 := 0, cvss_v3 := 0, cvss_v4 := 0, bridge := 0 }

/-! ## Dictionary and fold lemmas -/

theorem foldl_const {α β : Type} (f : β → α → β) (l : List α) (init : β)
    (h : ∀ b a, a ∈ l → f b a = b) : l.foldl f init = init := by
  induction l generalizing init with
  | nil => rfl
  | cons x xs ih =>
      rw [List.foldl_cons, h init x (List.mem_cons_self x xs)]
      exact ih init (fun b a ha => h b a (List.mem_cons_of_mem x ha))

theorem breakAtColon_eq_none : ∀ {l : List Char}, ':' ∉ l → breakAtColon l = none := by
  intro l h
  induction l with
  | nil => rfl
  | cons c cs ih =>
      have hc : ¬ c = ':' := fun hc => h (hc ▸ List.mem_cons_self c cs)
      have hcs : ':' ∉ cs := fun hm => h (List.mem_cons_of_mem c hm)
      simp [breakAtColon, hc, ih hcs]

theorem splitFirstColon_eq_none {p : String} (h : ':' ∉ p.data) :
    splitFirstColon p = none := by
  simp [splitFirstColon, breakAtColon_eq_none h]

theorem mem_dictInsert {x : String × Option String} {k : String} {v : Option String} :
    ∀ {m}, x ∈ dictInsert k v m → x = (k, v) ∨ x ∈ m := by
  intro m
  induction m with
  | nil =>
      intro h
      simp only [dictInsert, List.mem_singleton] at h
      exact Or.inl h
  | cons hd tl ih =>
      rcases hd with ⟨k', v'⟩
      intro h
      rw [dictInsert] at h
      by_cases hk : k' = k
      · rw [if_pos hk] at h
        rcases List.mem_cons.mp h with h | h
        · exact Or.inl h
        · exact Or.inr (List.mem_cons_of_mem _ h)
      · rw [if_neg hk] at h
        rcases List.mem_cons.mp h with h | h
        · exact Or.inr (h ▸ List.mem_cons_self _ _)
        · rcases ih h with h' | h'
          · exact Or.inl h'
          · exact Or.inr (List.mem_cons_of_mem _ h')

theorem lookup_dictInsert_self (k : String) (v : Option String) :
    ∀ m, List.lookup k (dictInsert k v m) = some v := by
  intro m
  induction m with
  | nil => simp [dictInsert, List.lookup]
  | cons hd tl ih =>
      rcases hd with ⟨k', v'⟩
      rw [dictInsert]
      by_cases hk : k' = k
      · rw [if_pos hk]; simp [List.lookup]
      · rw [if_neg hk]
        have hne : (k == k') = false := by
          simp only [beq_eq_false_iff_ne]; exact fun h => hk h.symm
        simp only [List.lookup, hne]
        exact ih

theorem dictMem_dictInsert_self (k : String) (v : Option String) (m : List (String × Option String)) :
    dictMem k (dictInsert k v m) = true := by
  simp [dictMem, lookup_dictInsert_self k v m]

theorem dictMem_dictInsert_mono {k : String} (k' : String) (v' : Option String) :
    ∀ {m}, dictMem k m = true → dictMem k (dictInsert k' v' m) = true := by
  intro m
  induction m with
  | nil => intro h; simp [dictMem, List.lookup] at h
  | cons hd tl ih =>
      rcases hd with ⟨k₀, v₀⟩
      intro h
      rw [dictInsert]
      by_cases hk : k₀ = k'
      · subst hk
        rw [if_pos rfl]
        by_cases hkk : k = k₀
        · subst hkk; simp [dictMem, List.lookup]
        · have hne₀ : (k == k₀) = false := by simp only [beq_eq_false_iff_ne]; exact hkk
          simp only [dictMem, List.lookup, hne₀] at h ⊢
          exact h
      · rw [if_neg hk]
        by_cases hkk : k = k₀
        · subst hkk; simp [dictMem, List.lookup]
        · have hne₀ : (k == k₀) = false := by simp only [beq_eq_false_iff_ne]; exact hkk
          simp only [dictMem, List.lookup, hne₀] at h ⊢
          exact ih h

theorem tableMem_mem_keys {k : String} :
    ∀ {tbl : List (String × String)}, tableMem k tbl = true → k ∈ tbl.map Prod.fst := by
  intro tbl
  induction tbl with
  | nil => intro h; simp [tableMem, List.lookup] at h
  | cons hd tl ih =>
      rcases hd with ⟨k', v'⟩
      intro h
      by_cases hk : k = k'
      · simp [hk]
      · have hne : (k == k') = false := by simp only [beq_eq_false_iff_ne]; exact hk
        simp only [tableMem, List.lookup, hne] at h
        simpa using Or.inr (ih h)

theorem mem_v3Cols_base {kv : String × String} (h : kv ∈ CVSS_V3_BASE_METRICS) :
    ("cvss_v3_base_" ++ pyLower kv.1) ∈ v3ColumnNames := by
  simp only [v3ColumnNames]
  exact List.mem_append.mpr (Or.inl (List.mem_append.mpr
    (Or.inl (List.mem_map.mpr ⟨kv, h, rfl⟩))))

theorem mem_v3Cols_temp {kv : String × String} (h : kv ∈ CVSS_V3_TEMPORAL_METRICS) :
    ("cvss_v3_temp_" ++ pyLower kv.1) ∈ v3ColumnNames := by
  simp only [v3ColumnNames]
  exact List.mem_append.mpr (Or.inl (List.mem_append.mpr
    (Or.inr (List.mem_map.mpr ⟨kv, h, rfl⟩))))

theorem mem_v3Cols_env {kv : String × String} (h : kv ∈ CVSS_V3_ENVIRONMENTAL_METRICS) :
    ("cvss_v3_env_" ++ pyLower kv.1) ∈ v3ColumnNames := by
  simp only [v3ColumnNames]
  exact List.mem_append.mpr (Or.inr (List.mem_map.mpr ⟨kv, h, rfl⟩))

theorem parse_vector_str_v2 (s : String) (hs : s ≠ "") :
    parse_vector (PyVal.str s) "v2" = parse_v2 (pyTrim s) := by
  simp [parse_vector, hs]

theorem parse_vector_str_v3 (s : String) (hs : s ≠ "") :
    parse_vector (PyVal.str s) "v3" = parse_v3 (pyTrim s) := by
  have h1 : ¬(("v3" : String) = "v2") := by decide
  simp [parse_vector, hs, h1]

theorem parse_vector_str_v4 (s : String) (hs : s ≠ "") :
    parse_vector (PyVal.str s) "v4" = parse_v4 (pyTrim s) := by
  have h1 : ¬(("v4" : String) = "v2") := by decide
  have h2 : ¬(("v4" : String) = "v3") := by decide
  simp [parse_vector, hs, h1, h2]

theorem parse_v2_def (s : String) :
    parse_v2 s = CVSS_V2_METRICS.foldl v2FillStep ((pySplit '/' s).foldl v2CollectStep []) := rfl

theorem parse_v3_def (s : String) :
    parse_v3 s = CVSS_V3_BASE_METRICS.foldl v3FillStep ((pySplit '/' s).foldl v3CollectStep []) := rfl

theorem parse_v4_def (s : String) :
    parse_v4 s = (pySplit '/' s).foldl v4CollectStep [] := rfl

/-- Invariant propagation through a fold that builds a dictionary: if every
step only adds entries satisfying `P`, every entry of the result satisfies
`P` or was in the initial dictionary's entries satisfying `P`. -/
theorem foldl_mem_pred {α : Type} (P : String × Option String → Prop)
    (step : List (String × Option String) → α → List (String × Option String))
    (l : List α)
    (hstep : ∀ m a, a ∈ l → ∀ x ∈ step m a, P x ∨ x ∈ m) :
    ∀ init, (∀ x ∈ init, P x) → ∀ x ∈ l.foldl step init, P x := by
  induction l with
  | nil => intro init hi x hx; exact hi x hx
  | cons a as ih =>
      intro init hi x hx
      rw [List.foldl_cons] at hx
      refine ih (fun m b hb => hstep m b (List.mem_cons_of_mem a hb)) _ ?_ x hx
      intro y hy
      rcases hstep init a (List.mem_cons_self a as) y hy with h | h
      · exact h
      · exact hi y h

theorem parse_v2_keys (s : String) : ∀ kv ∈ parse_v2 s, kv.1 ∈ v2ColumnNames := by
  intro kv hkv
  rw [parse_v2_def] at hkv
  refine foldl_mem_pred (fun x => x.1 ∈ v2ColumnNames) v2FillStep CVSS_V2_METRICS ?_ _ ?_ kv hkv
  · intro m a ha x hx
    rw [v2FillStep] at hx
    by_cases hm : dictMem ("cvss_v2_" ++ pyLower a.1) m = true
    · simp only [if_pos hm] at hx; exact Or.inr hx
    · simp only [if_neg hm] at hx
      rcases mem_dictInsert hx with h | h
      · refine Or.inl ?_
        rw [h]
        simp only [v2ColumnNames]
        exact List.mem_map.mpr ⟨a, ha, rfl⟩
      · exact Or.inr h
  · refine foldl_mem_pred (fun x => x.1 ∈ v2ColumnNames) v2CollectStep _ ?_ [] (by simp)
    intro m a _ x hx
    rw [v2CollectStep] at hx
    rcases hsp : splitFirstColon a with _ | ⟨k, v⟩
    · rw [hsp] at hx; exact Or.inr hx
    · rw [hsp] at hx
      by_cases ht : tableMem (pyTrim k) CVSS_V2_METRICS = true
      · simp only [if_pos ht] at hx
        rcases mem_dictInsert hx with h | h
        · refine Or.inl ?_
          rw [h]
          simp only [v2ColumnNames]
          rcases List.mem_map.mp (tableMem_mem_keys ht) with ⟨kv', hkv', hk'⟩
          refine List.mem_map.mpr ⟨kv', hkv', ?_⟩
          show "cvss_v2_" ++ pyLower kv'.1 = _
          rw [hk']
        · exact Or.inr h
      · simp only [if_neg ht] at hx; exact Or.inr hx

theorem parse_v3_keys (s : String) : ∀ kv ∈ parse_v3 s, kv.1 ∈ v3ColumnNames := by
  intro kv hkv
  rw [parse_v3_def] at hkv
  refine foldl_mem_pred (fun x => x.1 ∈ v3ColumnNames) v3FillStep CVSS_V3_BASE_METRICS ?_ _ ?_ kv hkv
  · intro m a ha x hx
    rw [v3FillStep] at hx
    by_cases hm : dictMem ("cvss_v3_base_" ++ pyLower a.1) m = true
    · simp only [if_pos hm] at hx; exact Or.inr hx
    · simp only [if_neg hm] at hx
      rcases mem_dictInsert hx with h | h
      · exact Or.inl (h ▸ mem_v3Cols_base ha)
      · exact Or.inr h
  · refine foldl_mem_pred (fun x => x.1 ∈ v3ColumnNames) v3CollectStep _ ?_ [] (by simp)
    intro m a _ x hx
    rw [v3CollectStep] at hx
    rcases hsp : splitFirstColon a with _ | ⟨k, v⟩
    · rw [hsp] at hx; exact Or.inr hx
    · rw [hsp] at hx
      by_cases hb : tableMem (pyTrim k) CVSS_V3_BASE_METRICS = true
      · simp only [if_pos hb] at hx
        rcases mem_dictInsert hx with h | h
        · refine Or.inl ?_
          rw [h]
          rcases List.mem_map.mp (tableMem_mem_keys hb) with ⟨kv', hkv', hk'⟩
          exact hk' ▸ mem_v3Cols_base hkv'
        · exact Or.inr h
      · simp only [if_neg hb] at hx
        by_cases htp : tableMem (pyTrim k) CVSS_V3_TEMPORAL_METRICS = true
        · simp only [if_pos htp] at hx
          rcases mem_dictInsert hx with h | h
          · refine Or.inl ?_
            rw [h]
            rcases List.mem_map.mp (tableMem_mem_keys htp) with ⟨kv', hkv', hk'⟩
            exact hk' ▸ mem_v3Cols_temp hkv'
          · exact Or.inr h
        · simp only [if_neg htp] at hx
          by_cases he : tableMem (pyTrim k) CVSS_V3_ENVIRONMENTAL_METRICS = true
          · simp only [if_pos he] at hx
            rcases mem_dictInsert hx with h | h
            · refine Or.inl ?_
              rw [h]
              rcases List.mem_map.mp (tableMem_mem_keys he) with ⟨kv', hkv', hk'⟩
              exact hk' ▸ mem_v3Cols_env hkv'
            · exact Or.inr h
          · simp only [if_neg he] at hx; exact Or.inr hx

theorem dictMem_foldl_v4 (l : List String) :
    ∀ (m : List (String × Option String)) (k : String), dictMem k m = true →
      dictMem k (l.foldl v4CollectStep m) = true := by
  induction l with
  | nil => intro m k h; exact h
  | cons p ps ih =>
      intro m k h
      rw [List.foldl_cons]
      refine ih _ k ?_
      rw [v4CollectStep]
      rcases hsp : splitFirstColon p with _ | ⟨k', v'⟩
      · exact h
      · exact dictMem_dictInsert_mono _ _ h

theorem dictMem_parse_v4_of_pair {pairs : List String} {p k v : String}
    (hp : p ∈ pairs) (hsp : splitFirstColon p = some (k, v)) :
    ∀ m, dictMem ("cvss_v4_" ++ pyLower (pyTrim k)) (pairs.foldl v4CollectStep m) = true := by
  induction pairs with
  | nil => cases hp
  | cons q qs ih =>
      intro m
      rw [List.foldl_cons]
      rcases List.mem_cons.mp hp with hq | hq
      · subst hq
        refine dictMem_foldl_v4 qs _ _ ?_
        rw [v4CollectStep, hsp]
        exact dictMem_dictInsert_self _ _ _
      · exact ih hq _

/-! ## Claim theorems about the vector decoder (C7, C8, C10) -/

/-- **C7, counterexample.**  The input `"hello"` contains no colon-delimited
`KEY:VALUE` pair, yet `parse_vector("hello", "v2")` is not the empty
mapping: `_parse_v2` fills every v2 base metric with `None`, producing a
six-entry mapping. -/
theorem parse_vector_no_pairs_nonempty :
    (∀ p ∈ pySplit '/' (pyTrim "hello"), ':' ∉ p.data) ∧
    parse_vector (PyVal.str "hello") "v2" ≠ [] := by decide

/-- **C7, amended.**  A missing, empty or non-string vector yields the
empty mapping, and the call never raises (the embedding is total).  A
non-empty vector in which no segment holds a colon yields, for v2 and v3,
the mapping that sends every base-metric column to `None` (not the empty
mapping), and for v4 the empty mapping. -/
theorem parse_vector_no_pairs (ver s : String) (hs : s ≠ "")
    (hnc : ∀ p ∈ pySplit '/' (pyTrim s), ':' ∉ p.data) :
    parse_vector PyVal.none ver = [] ∧
    parse_vector (PyVal.str "") ver = [] ∧
    parse_vector PyVal.other ver = [] ∧
    parse_vector (PyVal.str s) "v2" = v2AllNone ∧
    parse_vector (PyVal.str s) "v3" = v3AllNone ∧
    parse_vector (PyVal.str s) "v4" = [] := by
  have hsp : ∀ p ∈ pySplit '/' (pyTrim s), splitFirstColon p = none :=
    fun p hp => splitFirstColon_eq_none (hnc p hp)
  have hcol2 : (pySplit '/' (pyTrim s)).foldl v2CollectStep [] = [] :=
    foldl_const _ _ _ (fun m p hp => by rw [v2CollectStep, hsp p hp])
  have hcol3 : (pySplit '/' (pyTrim s)).foldl v3CollectStep [] = [] :=
    foldl_const _ _ _ (fun m p hp => by rw [v3CollectStep, hsp p hp])
  have hcol4 : (pySplit '/' (pyTrim s)).foldl v4CollectStep [] = [] :=
    foldl_const _ _ _ (fun m p hp => by rw [v4CollectStep, hsp p hp])
  refine ⟨rfl, rfl, rfl, ?_, ?_, ?_⟩
  · rw [parse_vector_str_v2 s hs, parse_v2_def, hcol2]
    decide
  · rw [parse_vector_str_v3 s hs, parse_v3_def, hcol3]
    decide
  · rw [parse_vector_str_v4 s hs, parse_v4_def, hcol4]

/-- **C7, witness** for the amended theorem at `s = "hello"`. -/
theorem parse_vector_no_pairs_witness :
    parse_vector (PyVal.str "hello") "v2" = v2AllNone ∧
    parse_vector (PyVal.str "hello") "v3" = v3AllNone ∧
    parse_vector (PyVal.str "hello") "v4" = [] := by
  have h := parse_vector_no_pairs "v2" "hello" (by decide) (by decide)
  exact ⟨h.2.2.2.1, h.2.2.2.2.1, h.2.2.2.2.2⟩

/-- **C8, counterexample.**  `XX` is not a metric key of any v4 table, yet
`parse_vector("XX:Y", "v4")` produces the entry `cvss_v4_xx ↦ "Y"`:
`_parse_v4` performs no key filtering, so for v4 unknown metric keys are
not ignored. -/
theorem parse_v4_unknown_key_kept :
    tableMem "XX" CVSS_V4_BASE_METRICS = false ∧
    ("cvss_v4_xx", some "Y") ∈ parse_vector (PyVal.str "XX:Y") "v4" := by decide

/-- **C8, amended.**  For v2 and v3 unknown metric keys are ignored: every
key of the result is one of that version's column names.  For v4 there is
no key filtering: every colon-delimited segment contributes an entry for
its (trimmed, lowercased) key, known or not.  Known keys with unrecognized
value codes pass the raw code through unchanged (exemplified by the
unrecognized v3 code `XYZ` for `AV`, whose known codes are N/A/L/P). -/
theorem parse_vector_key_filtering (s p k v : String) (hs : s ≠ "")
    (hp : p ∈ pySplit '/' (pyTrim s)) (hsp : splitFirstColon p = some (k, v)) :
    (∀ kv ∈ parse_vector (PyVal.str s) "v2", kv.1 ∈ v2ColumnNames) ∧
    (∀ kv ∈ parse_vector (PyVal.str s) "v3", kv.1 ∈ v3ColumnNames) ∧
    dictMem ("cvss_v4_" ++ pyLower (pyTrim k)) (parse_vector (PyVal.str s) "v4") = true ∧
    dictGet "cvss_v3_base_av" (parse_vector (PyVal.str "AV:XYZ") "v3") = some "XYZ" := by
  refine ⟨?_, ?_, ?_, by decide⟩
  · intro kv hkv
    rw [parse_vector_str_v2 s hs] at hkv
    exact parse_v2_keys _ kv hkv
  · intro kv hkv
    rw [parse_vector_str_v3 s hs] at hkv
    exact parse_v3_keys _ kv hkv
  · rw [parse_vector_str_v4 s hs, parse_v4_def]
    exact dictMem_parse_v4_of_pair hp hsp []

/-- **C8, witness** for the amended theorem at the vector `"XX:Y/AV:N"`. -/
theorem parse_vector_key_filtering_witness :
    dictMem ("cvss_v4_" ++ pyLower (pyTrim "XX")) (parse_vector (PyVal.str "XX:Y/AV:N") "v4") = true :=
  (parse_vector_key_filtering "XX:Y/AV:N" "XX:Y" "XX" "Y" (by decide)
    (by decide) (by decide)).2.2.1

/-- **C10.**  `parse_vector` returns the empty mapping, without raising,
whenever its version argument is none of `"v2"`, `"v3"`, `"v4"`, and
likewise whenever the vector argument is not a non-empty string (`None`,
the empty string, or a non-string value). -/
theorem parse_vector_default_empty (ver : String) (vec : PyVal)
    (h : ver ∉ ["v2", "v3", "v4"] ∨
         vec = PyVal.none ∨ vec = PyVal.str "" ∨ vec = PyVal.other) :
    parse_vector vec ver = [] := by
  rcases h with h | h | h | h
  · cases vec with
    | str s =>
        simp only [List.mem_cons, List.mem_singleton] at h
        push_neg at h
        by_cases hs : s = ""
        · simp [parse_vector, hs]
        · simp [parse_vector, hs, h.1, h.2.1, h.2.2]
    | none => rfl
    | other => rfl
  · subst h; rfl
  · subst h; rfl
  · subst h; rfl

/-- **C10, witness** at the unknown version `"v5"` and at a non-string
vector. -/
theorem parse_vector_default_empty_witness :
    parse_vector (PyVal.str "AV:N") "v5" = [] ∧ parse_vector PyVal.other "v3" = [] :=
  ⟨parse_vector_default_empty "v5" (PyVal.str "AV:N") (Or.inl (by decide)),
   parse_vector_default_empty "v3" PyVal.other (Or.inr (Or.inr (Or.inr rfl)))⟩

/-! ## Loader shape lemmas (append-only) -/

theorem load_dimension_append {α κ : Type} [DecidableEq κ] (pk? : Option (α → κ))
    (tbl df : List α) : ∃ t, (load_dimension pk? tbl df).1 = tbl ++ t := by
  unfold load_dimension
  split
  · exact ⟨[], (List.append_nil tbl).symm⟩
  · cases pk? with
    | none => exact ⟨df, rfl⟩
    | some pk =>
        dsimp only
        split
        · exact ⟨[], (List.append_nil tbl).symm⟩
        · exact ⟨_, rfl⟩

theorem load_fact_cvss_append {β : Type} (tbl : List (FactRowP β)) (df : List (FactRow β))
    (m : String → Option Nat) : ∃ t, (load_fact_cvss tbl df m).1 = tbl ++ t := by
  unfold load_fact_cvss
  split
  · exact ⟨[], (List.append_nil tbl).symm⟩
  · dsimp only
    split
    · exact ⟨[], (List.append_nil tbl).symm⟩
    · split
      · exact ⟨[], (List.append_nil tbl).symm⟩
      · exact ⟨_, rfl⟩

theorem load_bridge_append (tbl df : List (String × Nat)) :
    ∃ t, (load_bridge tbl df).1 = tbl ++ t := by
  unfold load_bridge
  split
  · exact ⟨[], (List.append_nil tbl).symm⟩
  · dsimp only
    split
    · exact ⟨[], (List.append_nil tbl).symm⟩
    · split
      · exact ⟨[], (List.append_nil tbl).symm⟩
      · exact ⟨_, rfl⟩

theorem load_dim_cvss_source_append (v2 : List (FactRow V2Rest))
    (v3 : List (FactRow V3Rest)) (v4 : List (FactRow V4Rest)) (tbl : List String) :
    ∃ t, (load_dim_cvss_source v2 v3 v4 tbl).1 = tbl ++ t := by
  unfold load_dim_cvss_source
  dsimp only
  split
  · exact ⟨[], (List.append_nil tbl).symm⟩
  · exact ⟨_, rfl⟩

/-! ## Claim theorems about the loader and the pipeline -/

/-- **C6.**  The gold loader is append-only: for any prior state, any
staged tables and any `if_exists` argument (which it ignores), every
table of the resulting state extends the prior table — every previously
persisted row is still present, unchanged and in place; nothing is
truncated, updated or deleted. -/
theorem load_gold_layer_append_only (S : GoldState) (T : GoldTables) (now : Int)
    (ifx : String) :
    (∃ t, (load_gold_layer S T now ifx).1.dim_cve = S.dim_cve ++ t) ∧
    (∃ t, (load_gold_layer S T now ifx).1.dim_cvss_source = S.dim_cvss_source ++ t) ∧
    (∃ t, (load_gold_layer S T now ifx).1.dim_vendor = S.dim_vendor ++ t) ∧
    (∃ t, (load_gold_layer S T now ifx).1.dim_products = S.dim_products ++ t) ∧
    (∃ t, (load_gold_layer S T now ifx).1.cvss_v2 = S.cvss_v2 ++ t) ∧
    (∃ t, (load_gold_layer S T now ifx).1.cvss_v3 = S.cvss_v3 ++ t) ∧
    (∃ t, (load_gold_layer S T now ifx).1.cvss_v4 = S.cvss_v4 ++ t) ∧
    (∃ t, (load_gold_layer S T now ifx).1.bridge_cve_products = S.bridge_cve_products ++ t) := by
  refine ⟨?_, ?_, ?_, ?_, ?_, ?_, ?_, ?_⟩ <;> simp only [load_gold_layer]
  · exact load_dimension_append _ _ _
  · exact load_dim_cvss_source_append _ _ _ _
  · exact load_dimension_append _ _ _
  · exact load_dimension_append _ _ _
  · exact load_fact_cvss_append _ _ _
  · exact load_fact_cvss_append _ _ _
  · exact load_fact_cvss_append _ _ _
  · exact load_bridge_append _ _

/-- **C1, counterexample.**  Running the pipeline on the end-to-end
example record persists one `cvss_v3` row whose decoded columns hold the
raw metric codes `N` and `H` — not the human-readable values `Network`
and `High` the claim states: the parser's version tables map metric codes
to column names only, no value-code table exists on this path. -/
theorem cvss_v3_decoded_values_counterexample :
    ((run_pipeline emptyGold [exampleRow] 0 0).1.cvss_v3.map
      (fun r => (r.rest.cvss_v3_base_av, r.rest.cvss_v3_base_c)))
      = [(some "N", some "H")] ∧
    ¬ (((run_pipeline emptyGold [exampleRow] 0 0).1.cvss_v3.map
      (fun r => (r.rest.cvss_v3_base_av, r.rest.cvss_v3_base_c)))
      = [(some "Network", some "High")]) := by decide

/-- **C1, amended.**  The vector decoder maps each metric code to a fact
column via a version-specific metric table, but the persisted value is
the raw value code of the vector, not a decoded label: the end-to-end
example yields exactly one `cvss_v3` row, with
`cvss_v3_base_av = "N"` and `cvss_v3_base_c = "H"`. -/
theorem cvss_v3_stores_raw_codes :
    ((run_pipeline emptyGold [exampleRow] 0 0).1.cvss_v3.map
      (fun r => (r.cve_id, r.source_id, r.cvss_vector,
                 r.rest.cvss_v3_base_av, r.rest.cvss_v3_base_c)))
      = [("CVE-2024-0001", 1, "CVSS:3.1/AV:N/AC:L/PR:N/UI:N/S:U/C:H/I:H/A:H",
          some "N", some "H")] := by decide

/-- **C3, counterexample.**  Two staged `cvss_v3` rows with identical
composite key `(cve_id, source, vector)` but differing score text are
both persisted by `load_fact_cvss` against an empty table, and the
inserted count is 2, not 1: the fact loader performs no within-batch
de-duplication. -/
theorem load_fact_cvss_duplicate_batch_counterexample :
    (dupEntry "5.0").score ≠ (dupEntry "9.8").score ∧
    (dupFactRow "5.0").cve_id = (dupFactRow "9.8").cve_id ∧
    (dupFactRow "5.0").cvss_source = (dupFactRow "9.8").cvss_source ∧
    (dupFactRow "5.0").cvss_vector = (dupFactRow "9.8").cvss_vector ∧
    (load_fact_cvss ([] : List (FactRowP V3Rest)) [dupFactRow "5.0", dupFactRow "9.8"]
      dupMapping).2 = 2 := by decide

/-- **C3, amended.**  The fact loader de-duplicates only against the
persisted keys, not within the incoming batch: a batch of two rows with
the same composite key `(cve_id, source, vector)` and any two (for
instance score-differing) payloads, loaded into an empty table, persists
both rows and reports 2 inserted, not 1. -/
theorem load_fact_cvss_no_batch_dedup (r1 r2 : V3Rest) :
    load_fact_cvss ([] : List (FactRowP V3Rest))
      [{ cve_id := "CVE-2024-0001", cvss_source := "nvd@nist.gov",
         cvss_vector := "CVSS:3.1/AV:N/AC:L/PR:N/UI:N/S:U/C:H/I:H/A:H", rest := r1 },
       { cve_id := "CVE-2024-0001", cvss_source := "nvd@nist.gov",
         cvss_vector := "CVSS:3.1/AV:N/AC:L/PR:N/UI:N/S:U/C:H/I:H/A:H", rest := r2 }]
      dupMapping
      = ([{ cve_id := "CVE-2024-0001", source_id := 1,
            cvss_vector := "CVSS:3.1/AV:N/AC:L/PR:N/UI:N/S:U/C:H/I:H/A:H", rest := r1 },
          { cve_id := "CVE-2024-0001", source_id := 1,
            cvss_vector := "CVSS:3.1/AV:N/AC:L/PR:N/UI:N/S:U/C:H/I:H/A:H", rest := r2 }],
         2) := by
  rfl

/-- **C4, counterexample.**  Batch A introduces `Acme Corp` with
`CVE-2024-0001`; batch B introduces `acme corp` with `CVE-2024-0002` and
the same product.  After both runs `dim_vendor` holds one row for Acme
with `total_cves = 1`, while the persisted bridge shows 2 distinct CVEs
referencing Acme's product: the claimed union recomputation does not
happen (batch B's vendor row is skipped because its `vendor_id` 1 already
exists, and nothing revisits the persisted counts). -/
theorem vendor_union_count_counterexample :
    (run_pipeline (run_pipeline emptyGold [vendorRowA] 0 0).1 [vendorRowB] 0 0).1.dim_vendor
      = [{ vendor_id := 1, vendor_name := "Acme Corp", total_products := 1,
           total_cves := 1, first_cve_date := some 100, last_cve_date := some 100 }] ∧
    (dropDuplicates
      ((run_pipeline (run_pipeline emptyGold [vendorRowA] 0 0).1 [vendorRowB]
        0 0).1.bridge_cve_products.map Prod.fst)).length = 2 ∧
    (1 : Nat) ≠ 2 := by decide

/-- **C4, amended.**  Within one batch, vendor identity is the lowercased
trimmed name with first-seen casing preserved and `total_cves` counting
per-occurrence.  Across runs, however, `dim_vendor` is de-duplicated by
`vendor_id`, not by name: batch B's staged Acme row (again id 1) is
skipped entirely, so after both runs exactly batch A's row remains —
counts and date bounds are not recomputed from the referencing CVEs. -/
theorem vendor_merge_by_id_not_name :
    (transform_silver_to_gold [vendorRowA, vendorRowB] 0).dim_vendor
      = [{ vendor_id := 1, vendor_name := "Acme Corp", total_products := 1,
           total_cves := 2, first_cve_date := some 100, last_cve_date := some 200 }] ∧
    (transform_silver_to_gold [vendorRowB] 0).dim_vendor.map
      (fun r => (r.vendor_id, r.vendor_name)) = [(1, "acme corp")] ∧
    (run_pipeline (run_pipeline emptyGold [vendorRowA] 0 0).1 [vendorRowB] 0 0).1.dim_vendor
      = (run_pipeline emptyGold [vendorRowA] 0 0).1.dim_vendor := by decide

/-- **C5, counterexample.**  Run 1 persists vendor `Alpha` under id 1.
Run 2's transform assigns the same id 1 to the different key `Beta`
(identifiers restart at 1; persisted state is never consulted), and the
loader then skips Beta because id 1 exists — so the persisted dimension
still holds only Alpha and the genuinely new key Beta never receives an
identifier. -/
theorem vendor_id_reassigned_counterexample :
    (run_pipeline emptyGold [alphaRow] 0 0).1.dim_vendor.map
      (fun r => (r.vendor_id, r.vendor_name)) = [(1, "Alpha")] ∧
    (transform_silver_to_gold [betaRow] 0).dim_vendor.map
      (fun r => (r.vendor_id, r.vendor_name)) = [(1, "Beta")] ∧
    (run_pipeline (run_pipeline emptyGold [alphaRow] 0 0).1 [betaRow] 0 0).1.dim_vendor.map
      (fun r => (r.vendor_id, r.vendor_name)) = [(1, "Alpha")] := by decide

theorem enumFrom_map_add_one {α : Type} :
    ∀ (l : List α) (i : Nat),
      (List.enumFrom i l).map (fun p => p.1 + 1) = List.range' (i + 1) l.length := by
  intro l
  induction l with
  | nil => intro i; rfl
  | cons a as ih =>
      intro i
      show (i + 1) :: (List.enumFrom (i + 1) as).map (fun p => p.1 + 1)
        = (i + 1) :: List.range' (i + 2) as.length
      rw [ih (i + 1)]

/-- **C5, amended.**  Within one run, vendor and product identifiers are
the synthetic integers 1, 2, … assigned in first-appearance order to the
distinct keys of that batch.  Across runs they restart from 1 without any
lookup of persisted state.  For `dim_vendor` the loader skips staged rows
whose `vendor_id` already exists, so an id persisted for one key is
re-staged for a different key by a later run, whose genuinely new vendor
is then silently dropped.  For `dim_products` the loader performs no key
check at all (its computed key column `products_id` is not a column of
the dataframe, whose column is `product_id`), so staged product rows are
appended wholesale and the same `product_id` ends up persisted for
several different keys. -/
theorem vendor_product_ids_fresh_each_run (df : List SilverRow) :
    ((create_vendors_products_and_bridge df).1.map (fun r => r.vendor_id)
      = List.range' 1 (create_vendors_products_and_bridge df).1.length) ∧
    ((create_vendors_products_and_bridge df).2.1.map (fun r => r.product_id)
      = List.range' 1 (create_vendors_products_and_bridge df).2.1.length) ∧
    (transform_silver_to_gold [betaRow] 0).dim_vendor.map
      (fun r => (r.vendor_id, r.vendor_name)) = [(1, "Beta")] ∧
    (run_pipeline (run_pipeline emptyGold [alphaRow] 0 0).1 [betaRow] 0 0).1.dim_vendor
      = (run_pipeline emptyGold [alphaRow] 0 0).1.dim_vendor ∧
    (run_pipeline (run_pipeline emptyGold [alphaRow] 0 0).1 [betaRow] 0 0).1.dim_products.map
      (fun r => (r.product_id, r.product_name)) = [(1, "Widget"), (1, "Gadget")] := by
  refine ⟨?_, ?_, by decide, by decide, by decide⟩
  · simp only [create_vendors_products_and_bridge]
    split
    · rfl
    · rw [List.map_map, List.length_map, List.enum_length]
      exact enumFrom_map_add_one _ 0
  · simp only [create_vendors_products_and_bridge]
    split
    · rfl
    · rw [List.map_map, List.length_map, List.enum_length]
      exact enumFrom_map_add_one _ 0

/-- **C9.**  A `CvssEntry` with version tag `CVSS 3.1` but an empty vector
string produces zero staged `cvss_v3` rows (it is dropped by the
transform's NOT NULL guard), hence zero persisted rows: the `cvss_v3`
table is unchanged by the run. -/
theorem empty_vector_entry_no_v3_rows (e : ScoreEntry) (r : SilverRow) (S : GoldState)
    (nT nL : Int) (ifx : String)
    (hv : e.version = some "CVSS 3.1") (hvec : e.vector = some "")
    (hr : r.cvss_scores = [e]) :
    (transform_silver_to_gold [r] nT).cvss_v3 = [] ∧
    (run_pipeline S [r] nT nL ifx).1.cvss_v3 = S.cvss_v3 := by
  have hguard : entryGuards e = none := by
    rw [entryGuards, hv, hvec]
    decide
  have hrow : v3FactsOfRow r = [] := by
    by_cases hid : r.cve_id = ""
    · simp [v3FactsOfRow, hid]
    · simp [v3FactsOfRow, hid, hr, hguard]
  have htab : (transform_silver_to_gold [r] nT).cvss_v3 = [] := by
    simp [transform_silver_to_gold, create_cvss_facts, hrow]
  refine ⟨htab, ?_⟩
  show (load_gold_layer S (transform_silver_to_gold [r] nT) nL ifx).1.cvss_v3 = S.cvss_v3
  simp only [load_gold_layer, htab]
  simp [load_fact_cvss]

/-- **C9, witness** at the example record carrying a single
`CVSS 3.1` entry with an empty vector, against the empty gold state. -/
theorem empty_vector_entry_no_v3_rows_witness :
    (transform_silver_to_gold [emptyVectorRow] 0).cvss_v3 = [] ∧
    (run_pipeline emptyGold [emptyVectorRow] 0 0 "append").1.cvss_v3 = emptyGold.cvss_v3 :=
  empty_vector_entry_no_v3_rows emptyVectorEntry emptyVectorRow emptyGold 0 0 "append"
    rfl rfl rfl

/-! ## Second-run behaviour of the loader (C2) -/

theorem mem_insertSorted_self {α : Type} (le : α → α → Bool) (x : α) :
    ∀ l, x ∈ insertSorted le x l := by
  intro l
  induction l with
  | nil => exact List.mem_singleton.mpr rfl
  | cons y ys ih =>
      rw [insertSorted]
      by_cases h : le x y = true
      · rw [if_pos h]; exact List.mem_cons_self _ _
      · rw [if_neg h]; exact List.mem_cons_of_mem _ ih

theorem mem_insertSorted_of_mem {α : Type} (le : α → α → Bool) (x : α) :
    ∀ {l} {a : α}, a ∈ l → a ∈ insertSorted le x l := by
  intro l
  induction l with
  | nil => intro a h; cases h
  | cons y ys ih =>
      intro a h
      rw [insertSorted]
      by_cases hle : le x y = true
      · rw [if_pos hle]; exact List.mem_cons_of_mem _ h
      · rw [if_neg hle]
        rcases List.mem_cons.mp h with h' | h'
        · exact h' ▸ List.mem_cons_self _ _
        · exact List.mem_cons_of_mem _ (ih h')

theorem mem_sortBy_of_mem {α : Type} (le : α → α → Bool) :
    ∀ {l} {a : α}, a ∈ l → a ∈ sortBy le l := by
  intro l
  induction l with
  | nil => intro a h; cases h
  | cons y ys ih =>
      intro a h
      show a ∈ insertSorted le y (sortBy le ys)
      rcases List.mem_cons.mp h with h' | h'
      · exact h' ▸ mem_insertSorted_self le y (sortBy le ys)
      · exact mem_insertSorted_of_mem le y (ih h')

theorem load_dimension_mem_keys {α κ : Type} [DecidableEq κ] (pk : α → κ)
    (tbl df : List α) {r : α} (hr : r ∈ df) :
    pk r ∈ ((load_dimension (some pk) tbl df).1).map pk := by
  have hne : df.isEmpty = false := by
    cases df with
    | nil => cases hr
    | cons a as => rfl
  unfold load_dimension
  simp only [hne, Bool.false_eq_true, if_false]
  split
  · rename_i hemp
    have hall := List.filter_eq_nil_iff.mp (List.isEmpty_iff.mp hemp) r hr
    simp only [decide_eq_true_eq, Decidable.not_not] at hall
    exact List.mem_of_mem_filter hall
  · by_cases hin : pk r ∈ tbl.map pk
    · rw [List.map_append]; exact List.mem_append.mpr (Or.inl hin)
    · rw [List.map_append]
      refine List.mem_append.mpr (Or.inr ?_)
      refine List.mem_map_of_mem pk (List.mem_filter.mpr ⟨hr, ?_⟩)
      simp only [decide_eq_true_eq]
      intro hcon
      exact hin (List.mem_of_mem_filter hcon)

theorem load_dimension_none_eq {α κ : Type} [DecidableEq κ] (tbl df : List α) :
    load_dimension (none : Option (α → κ)) tbl df = (tbl ++ df, df.length) := by
  cases df with
  | nil => simp [load_dimension]
  | cons a as => rfl

theorem load_dimension_reload {α κ : Type} [DecidableEq κ] (pk : α → κ)
    (tbl df : List α) (hkeys : ∀ r ∈ df, pk r ∈ tbl.map pk) :
    load_dimension (some pk) tbl df = (tbl, 0) := by
  by_cases hdf : df.isEmpty = true
  · unfold load_dimension; rw [if_pos hdf]
  · unfold load_dimension
    rw [if_neg hdf]
    dsimp only
    have hfil : df.filter (fun r => decide (pk r ∉
        (tbl.map pk).filter (fun k => decide (k ∈ df.map pk)))) = [] := by
      refine List.filter_eq_nil_iff.mpr ?_
      intro a ha
      simp only [decide_eq_true_eq, Decidable.not_not]
      refine List.mem_filter.mpr ⟨hkeys a ha, ?_⟩
      simp only [decide_eq_true_eq]
      exact List.mem_map_of_mem pk ha
    rw [hfil]
    rfl

theorem load_fact_cvss_mem_keys {β : Type} (tbl : List (FactRowP β)) (df : List (FactRow β))
    (m : String → Option Nat) {p : FactRowP β} (hp : p ∈ factResolve m df) :
    factKeyP p ∈ ((load_fact_cvss tbl df m).1).map factKeyP := by
  have hne : df.isEmpty = false := by
    cases df with
    | nil => simp [factResolve] at hp
    | cons a as => rfl
  have hne3 : (factResolve m df).isEmpty = false := by
    cases h : factResolve m df with
    | nil => rw [h] at hp; cases hp
    | cons a as => rfl
  unfold load_fact_cvss
  simp only [hne, Bool.false_eq_true, if_false]
  simp only [hne3, Bool.false_eq_true, if_false]
  split
  · rename_i hemp
    have hall := List.filter_eq_nil_iff.mp (List.isEmpty_iff.mp hemp) p hp
    simp only [decide_eq_true_eq, Decidable.not_not] at hall
    exact hall
  · by_cases hin : factKeyP p ∈ tbl.map factKeyP
    · rw [List.map_append]; exact List.mem_append.mpr (Or.inl hin)
    · rw [List.map_append]
      refine List.mem_append.mpr (Or.inr ?_)
      refine List.mem_map_of_mem factKeyP (List.mem_filter.mpr ⟨hp, ?_⟩)
      simp only [decide_eq_true_eq]
      exact hin

theorem load_fact_cvss_reload {β : Type} (tbl : List (FactRowP β)) (df : List (FactRow β))
    (m : String → Option Nat)
    (hkeys : ∀ p ∈ factResolve m df, factKeyP p ∈ tbl.map factKeyP) :
    load_fact_cvss tbl df m = (tbl, 0) := by
  by_cases hdf : df.isEmpty = true
  · unfold load_fact_cvss; rw [if_pos hdf]
  · unfold load_fact_cvss
    rw [if_neg hdf]
    dsimp only
    by_cases h3 : (factResolve m df).isEmpty = true
    · rw [if_pos h3]
    · rw [if_neg h3]
      have hfil : (factResolve m df).filter
          (fun r => decide (factKeyP r ∉ tbl.map factKeyP)) = [] := by
        refine List.filter_eq_nil_iff.mpr ?_
        intro a ha
        simp only [decide_eq_true_eq, Decidable.not_not]
        exact hkeys a ha
      rw [hfil]
      rfl

theorem load_bridge_mem_keys (tbl df : List (String × Nat)) {p : String × Nat}
    (hp : p ∈ bridgePrep df) :
    bridgeKey p ∈ ((load_bridge tbl df).1).map bridgeKey := by
  have hne : df.isEmpty = false := by
    cases df with
    | nil => simp [bridgePrep, dropDuplicates, dropDuplicates.go] at hp
    | cons a as => rfl
  have hne1 : (bridgePrep df).isEmpty = false := by
    cases h : bridgePrep df with
    | nil => rw [h] at hp; cases hp
    | cons a as => rfl
  unfold load_bridge
  simp only [hne, Bool.false_eq_true, if_false]
  simp only [hne1, Bool.false_eq_true, if_false]
  split
  · rename_i hemp
    have hall := List.filter_eq_nil_iff.mp (List.isEmpty_iff.mp hemp) p hp
    simp only [decide_eq_true_eq, Decidable.not_not] at hall
    exact hall
  · by_cases hin : bridgeKey p ∈ tbl.map bridgeKey
    · rw [List.map_append]; exact List.mem_append.mpr (Or.inl hin)
    · rw [List.map_append]
      refine List.mem_append.mpr (Or.inr ?_)
      refine List.mem_map_of_mem bridgeKey (List.mem_filter.mpr ⟨hp, ?_⟩)
      simp only [decide_eq_true_eq]
      exact hin

theorem load_bridge_reload (tbl df : List (String × Nat))
    (hkeys : ∀ p ∈ bridgePrep df, bridgeKey p ∈ tbl.map bridgeKey) :
    load_bridge tbl df = (tbl, 0) := by
  by_cases hdf : df.isEmpty = true
  · unfold load_bridge; rw [if_pos hdf]
  · unfold load_bridge
    rw [if_neg hdf]
    dsimp only
    by_cases h1 : (bridgePrep df).isEmpty = true
    · rw [if_pos h1]
    · rw [if_neg h1]
      have hfil : (bridgePrep df).filter
          (fun r => decide (bridgeKey r ∉ tbl.map bridgeKey)) = [] := by
        refine List.filter_eq_nil_iff.mpr ?_
        intro a ha
        simp only [decide_eq_true_eq, Decidable.not_not]
        exact hkeys a ha
      rw [hfil]
      rfl

theorem load_dim_cvss_source_empty_eq (v2 : List (FactRow V2Rest))
    (v3 : List (FactRow V3Rest)) (v4 : List (FactRow V4Rest)) (tbl : List String)
    (hs : (dropDuplicates (collectFactSources v2 ++ collectFactSources v3 ++
      collectFactSources v4)).isEmpty = true) :
    load_dim_cvss_source v2 v3 v4 tbl = (tbl, fun _ => none) := by
  unfold load_dim_cvss_source
  dsimp only
  rw [if_pos hs]

theorem load_dim_cvss_source_nonempty_eq (v2 : List (FactRow V2Rest))
    (v3 : List (FactRow V3Rest)) (v4 : List (FactRow V4Rest)) (tbl : List String)
    (hs : ¬ (dropDuplicates (collectFactSources v2 ++ collectFactSources v3 ++
      collectFactSources v4)).isEmpty = true) :
    load_dim_cvss_source v2 v3 v4 tbl
      = (tbl ++ sortStrings ((dropDuplicates (collectFactSources v2 ++
            collectFactSources v3 ++ collectFactSources v4)).filter
            (fun s => decide (s ≠ "" ∧ s ∉ tbl))),
         sourceMapping (tbl ++ sortStrings ((dropDuplicates (collectFactSources v2 ++
            collectFactSources v3 ++ collectFactSources v4)).filter
            (fun s => decide (s ≠ "" ∧ s ∉ tbl))))) := by
  unfold load_dim_cvss_source
  dsimp only
  rw [if_neg hs]

theorem load_dim_cvss_source_stable (v2 : List (FactRow V2Rest))
    (v3 : List (FactRow V3Rest)) (v4 : List (FactRow V4Rest)) (tbl : List String) :
    load_dim_cvss_source v2 v3 v4 (load_dim_cvss_source v2 v3 v4 tbl).1
      = load_dim_cvss_source v2 v3 v4 tbl := by
  by_cases hs : (dropDuplicates (collectFactSources v2 ++ collectFactSources v3 ++
      collectFactSources v4)).isEmpty = true
  · have h1 := load_dim_cvss_source_empty_eq v2 v3 v4 tbl hs
    rw [h1]
    exact load_dim_cvss_source_empty_eq v2 v3 v4 tbl hs
  · have h1 := load_dim_cvss_source_nonempty_eq v2 v3 v4 tbl hs
    have hfil2 : (dropDuplicates (collectFactSources v2 ++ collectFactSources v3 ++
        collectFactSources v4)).filter
        (fun s => decide (s ≠ "" ∧ s ∉ (load_dim_cvss_source v2 v3 v4 tbl).1)) = [] := by
      refine List.filter_eq_nil_iff.mpr ?_
      intro s hsrc
      simp only [decide_eq_true_eq]
      rintro ⟨hne, hnotin⟩
      apply hnotin
      rw [h1]
      by_cases hmem : s ∈ tbl
      · exact List.mem_append.mpr (Or.inl hmem)
      · refine List.mem_append.mpr (Or.inr ?_)
        refine mem_sortBy_of_mem _ (List.mem_filter.mpr ⟨hsrc, ?_⟩)
        simp only [decide_eq_true_eq]
        exact ⟨hne, hmem⟩
    rw [load_dim_cvss_source_nonempty_eq v2 v3 v4 (load_dim_cvss_source v2 v3 v4 tbl).1 hs,
        hfil2]
    simp only [show sortStrings ([] : List String) = [] from rfl, List.append_nil]
    rw [h1]

theorem prepared_dim_cve_keys (T : List DimCveRow) (n : Int) :
    (T.map (prepare_dim_cve n)).map (fun r => r.cve_id)
      = T.map (fun r => pyTake 20 r.cve_id) := by
  rw [List.map_map]
  rfl

theorem transform_dim_cve_keys_stable (df : List SilverRow) (n1 n2 m1 m2 : Int) :
    (((transform_silver_to_gold df n2).dim_cve.map (prepare_dim_cve m2)).map
      (fun r => r.cve_id))
      = (((transform_silver_to_gold df n1).dim_cve.map (prepare_dim_cve m1)).map
      (fun r => r.cve_id)) := by
  show (((create_dim_cve df n2).map (prepare_dim_cve m2)).map (fun r => r.cve_id))
      = (((create_dim_cve df n1).map (prepare_dim_cve m1)).map (fun r => r.cve_id))
  unfold create_dim_cve
  dsimp only
  simp only [List.map_map]
  rfl

/-- Loading the same staged tables a second time (up to the transform's
timestamp-dependent `dim_cve` content, whose key column is unchanged)
inserts nothing and leaves the state untouched — **except** for
`dim_products`, whose key check the loader skips (its computed key column
`products_id` is not a column), so the staged product batch is appended
again in full. -/
theorem load_gold_layer_reload (S : GoldState) (T1 T2 : GoldTables) (n1 n2 : Int)
    (x1 x2 : String)
    (hcve : ((T2.dim_cve.map (prepare_dim_cve n2)).map (fun r => r.cve_id))
          = ((T1.dim_cve.map (prepare_dim_cve n1)).map (fun r => r.cve_id)))
    (hven : T2.dim_vendor = T1.dim_vendor)
    (hpro : T2.dim_products = T1.dim_products)
    (hv2 : T2.cvss_v2 = T1.cvss_v2) (hv3 : T2.cvss_v3 = T1.cvss_v3)
    (hv4 : T2.cvss_v4 = T1.cvss_v4)
    (hbr : T2.bridge_cve_products = T1.bridge_cve_products) :
    load_gold_layer (load_gold_layer S T1 n1 x1).1 T2 n2 x2
      = ({ (load_gold_layer S T1 n1 x1).1 with
             dim_products := (load_gold_layer S T1 n1 x1).1.dim_products ++ T2.dim_products },
         { zeroStats with dim_products := T2.dim_products.length }) := by
  have hdcve : load_dimension (some (fun r : DimCveRow => r.cve_id))
      (load_dimension (some (fun r : DimCveRow => r.cve_id)) S.dim_cve
        (T1.dim_cve.map (prepare_dim_cve n1))).1
      (T2.dim_cve.map (prepare_dim_cve n2))
      = ((load_dimension (some (fun r : DimCveRow => r.cve_id)) S.dim_cve
        (T1.dim_cve.map (prepare_dim_cve n1))).1, 0) := by
    refine load_dimension_reload _ _ _ ?_
    intro r hr
    have h1 : r.cve_id ∈ (T2.dim_cve.map (prepare_dim_cve n2)).map (fun r => r.cve_id) :=
      List.mem_map_of_mem _ hr
    rw [hcve] at h1
    rcases List.mem_map.mp h1 with ⟨r1, hr1, he⟩
    exact he ▸ load_dimension_mem_keys _ _ _ hr1
  have hdven : load_dimension (some (fun r : VendorRow => r.vendor_id))
      (load_dimension (some (fun r : VendorRow => r.vendor_id)) S.dim_vendor T1.dim_vendor).1
      T1.dim_vendor
      = ((load_dimension (some (fun r : VendorRow => r.vendor_id)) S.dim_vendor
          T1.dim_vendor).1, 0) :=
    load_dimension_reload _ _ _ (fun r hr => load_dimension_mem_keys _ _ _ hr)
  have hdpro : load_dimension (none : Option (ProductRow → Nat))
      (load_dimension (none : Option (ProductRow → Nat)) S.dim_products T1.dim_products).1
      T1.dim_products
      = ((load_dimension (none : Option (ProductRow → Nat)) S.dim_products
          T1.dim_products).1 ++ T1.dim_products, T1.dim_products.length) :=
    load_dimension_none_eq _ _
  have hsrc := load_dim_cvss_source_stable T1.cvss_v2 T1.cvss_v3 T1.cvss_v4 S.dim_cvss_source
  have hfact2 : load_fact_cvss
      (load_fact_cvss S.cvss_v2 T1.cvss_v2
        (load_dim_cvss_source T1.cvss_v2 T1.cvss_v3 T1.cvss_v4 S.dim_cvss_source).2).1
      T1.cvss_v2
      (load_dim_cvss_source T1.cvss_v2 T1.cvss_v3 T1.cvss_v4 S.dim_cvss_source).2
      = ((load_fact_cvss S.cvss_v2 T1.cvss_v2
        (load_dim_cvss_source T1.cvss_v2 T1.cvss_v3 T1.cvss_v4 S.dim_cvss_source).2).1, 0) :=
    load_fact_cvss_reload _ _ _ (fun p hp => load_fact_cvss_mem_keys _ _ _ hp)
  have hfact3 : load_fact_cvss
      (load_fact_cvss S.cvss_v3 T1.cvss_v3
        (load_dim_cvss_source T1.cvss_v2 T1.cvss_v3 T1.cvss_v4 S.dim_cvss_source).2).1
      T1.cvss_v3
      (load_dim_cvss_source T1.cvss_v2 T1.cvss_v3 T1.cvss_v4 S.dim_cvss_source).2
      = ((load_fact_cvss S.cvss_v3 T1.cvss_v3
        (load_dim_cvss_source T1.cvss_v2 T1.cvss_v3 T1.cvss_v4 S.dim_cvss_source).2).1, 0) :=
    load_fact_cvss_reload _ _ _ (fun p hp => load_fact_cvss_mem_keys _ _ _ hp)
  have hfact4 : load_fact_cvss
      (load_fact_cvss S.cvss_v4 T1.cvss_v4
        (load_dim_cvss_source T1.cvss_v2 T1.cvss_v3 T1.cvss_v4 S.dim_cvss_source).2).1
      T1.cvss_v4
      (load_dim_cvss_source T1.cvss_v2 T1.cvss_v3 T1.cvss_v4 S.dim_cvss_source).2
      = ((load_fact_cvss S.cvss_v4 T1.cvss_v4
        (load_dim_cvss_source T1.cvss_v2 T1.cvss_v3 T1.cvss_v4 S.dim_cvss_source).2).1, 0) :=
    load_fact_cvss_reload _ _ _ (fun p hp => load_fact_cvss_mem_keys _ _ _ hp)
  have hbridge : load_bridge
      (load_bridge S.bridge_cve_products T1.bridge_cve_products).1 T1.bridge_cve_products
      = ((load_bridge S.bridge_cve_products T1.bridge_cve_products).1, 0) :=
    load_bridge_reload _ _ (fun p hp => load_bridge_mem_keys _ _ hp)
  simp only [load_gold_layer]
  rw [hven, hpro, hv2, hv3, hv4, hbr]
  rw [hsrc]
  rw [hdcve, hdven, hdpro, hfact2, hfact3, hfact4, hbridge]
  rfl

/-- **C2, counterexample.**  Running the pipeline a second time on the
identical one-product batch does not insert 0 everywhere: the loader's
computed key column for `dim_products` (`products_id`, from
`table_name.split('_')[1] + "_id"`) is not a dataframe column (the column
is `product_id`), so the existence check is skipped and the staged
product row is appended again — the second pass reports 1 insert for
`dim_products` and the persisted table holds the same row twice (with a
primary-key constraint in the database this write raises instead; either
way the collision is not the claimed skip). -/
theorem pipeline_second_run_reinserts_products :
    (run_pipeline (run_pipeline emptyGold [vendorRowA] 0 0).1 [vendorRowA] 0 0).2
      = { zeroStats with dim_products := 1 } ∧
    (run_pipeline (run_pipeline emptyGold [vendorRowA] 0 0).1 [vendorRowA] 0 0).1.dim_products
      = [{ product_id := 1, vendor_id := some 1, product_name := "Widget",
           total_cves := 1, first_cve_date := some 100, last_cve_date := some 100 },
         { product_id := 1, vendor_id := some 1, product_name := "Widget",
           total_cves := 1, first_cve_date := some 100, last_cve_date := some 100 }] ∧
    ({ zeroStats with dim_products := 1 } : LoadStats) ≠ zeroStats := by decide

/-- **C2, amended.**  Running the full pipeline twice on the identical
silver batch inserts 0 rows on the second pass for every gold table
except `dim_products`: for `dim_cve`, `dim_cvss_source`, `dim_vendor`,
the three CVSS fact tables and the bridge every incoming identity key
collides with a persisted row and is skipped, leaving those tables
unchanged; for `dim_products` the loader's key check is skipped (wrong
computed column name), so the second pass re-appends the entire staged
product batch and reports its length as inserted.  This holds for any
initial state, batch, timestamps and `if_exists` arguments. -/
theorem pipeline_second_run_zero_except_products (S : GoldState) (df : List SilverRow)
    (nT1 nL1 nT2 nL2 : Int) (x1 x2 : String) :
    run_pipeline (run_pipeline S df nT1 nL1 x1).1 df nT2 nL2 x2
      = ({ (run_pipeline S df nT1 nL1 x1).1 with
             dim_products := (run_pipeline S df nT1 nL1 x1).1.dim_products
               ++ (transform_silver_to_gold df nT2).dim_products },
         { zeroStats with
             dim_products := (transform_silver_to_gold df nT2).dim_products.length }) := by
  unfold run_pipeline
  exact load_gold_layer_reload S (transform_silver_to_gold df nT1)
    (transform_silver_to_gold df nT2) nL1 nL2 x1 x2
    (transform_dim_cve_keys_stable df nT1 nT2 nL1 nL2) rfl rfl rfl rfl rfl rfl

end ThreatIntel